import Mathlib

/-!
# Platform bindings (GLFW / SDL2 / windowless): flag tables and dispatch shim

Shallow embedding of `src/python/magnum/platform/glfw.cpp`,
`src/python/magnum/platform/sdl2.cpp` and
`src/python/magnum/platform/windowlessapplication.h`.

Preprocessor conditions become fields of a build-configuration record, the
brace-initialised `std::vector<std::pair<Flag, const char*>>` tables become
lists of pairs in source order, and the native enumerators the tables refer to
become constructors of an inductive type.
-/

namespace Magnum.Platform

/-! ## Registered flag tables -/

/-- Preprocessor symbols tested by `glfw.cpp`. -/
structure GlfwBuild where
  GLFW_MAXIMIZED : Bool
  GLFW_NO_API : Bool
  GLFW_CONTEXT_NO_ERROR : Bool
  MAGNUM_TARGET_GLES : Bool
deriving DecidableEq, Repr

/-- Preprocessor symbols tested (or named in a commented-out guard) by
`sdl2.cpp`. The three version components are the integer literals the SDL
headers define. -/
structure Sdl2Build where
  CORRADE_TARGET_EMSCRIPTEN : Bool
  MAGNUM_TARGET_GLES : Bool
  MAGNUM_BUILD_DEPRECATED : Bool
  SDL_MAJOR_VERSION : Nat
  SDL_MINOR_VERSION : Nat
  SDL_PATCHLEVEL : Nat
deriving DecidableEq, Repr

/-- Enumerators of the GLFW `Configuration::WindowFlag` named in `glfw.cpp`. -/
inductive GlfwWindowFlag where
  | Fullscreen
  | Resizable
  | Hidden
  | Maximized
  | Minimized
  | Floating
  | AutoIconify
  | Focused
  | Contextless
deriving DecidableEq, Repr

/-- Enumerators of the GLFW `GLConfiguration::Flag` named in `glfw.cpp`. -/
inductive GlfwGLFlag where
  | Debug
  | Stereo
  | ForwardCompatible
  | NoError
deriving DecidableEq, Repr

/-- Enumerators of the SDL2 `Configuration::WindowFlag` named in `sdl2.cpp`,
including `AllowHighDpi`, which the source names only inside a commented-out
`MAGNUM_BUILD_DEPRECATED` block. -/
inductive Sdl2WindowFlag where
  | Resizable
  | Contextless
  | OpenGL
  | Fullscreen
  | Borderless
  | Hidden
  | Maximized
  | Minimized
  | MouseLocked
  | AllowHighDpi
  | Vulkan
deriving DecidableEq, Repr

/-- Enumerators of the SDL2 `GLConfiguration::Flag` named in `sdl2.cpp`. -/
inductive Sdl2GLFlag where
  | Debug
  | RobustAccess
  | ResetIsolation
  | ForwardCompatible
deriving DecidableEq, Repr

/-- One `#if`/`#ifdef` block of table entries: kept when the condition holds. -/
def ifdef {α : Type} (cond : Bool) (entries : List α) : List α :=
  if cond then entries else []

/-- `glfw.cpp` lines 172-188: `windowFlagMap`. -/
def Glfw.windowFlagMap (b : GlfwBuild) : List (GlfwWindowFlag × String) :=
  [(.Fullscreen, "FULLSCREEN"), (.Resizable, "RESIZABLE"), (.Hidden, "HIDDEN")]
    ++ ifdef b.GLFW_MAXIMIZED [(.Maximized, "MAXIMIZED")]
    ++ [(.Minimized, "MINIMIZED"), (.Floating, "FLOATING"),
        (.AutoIconify, "AUTO_ICONIFY"), (.Focused, "FOCUSED")]
    ++ ifdef b.GLFW_NO_API [(.Contextless, "CONTEXTLESS")]

/-- `glfw.cpp` lines 190-201: `glConfigurationFlagMap`. -/
def Glfw.glConfigurationFlagMap (b : GlfwBuild) : List (GlfwGLFlag × String) :=
  [(.Debug, "DEBUG"), (.Stereo, "STEREO")]
    ++ ifdef (!b.MAGNUM_TARGET_GLES) [(.ForwardCompatible, "FORWARD_COMPATIBLE")]
    ++ ifdef b.GLFW_CONTEXT_NO_ERROR [(.NoError, "NO_ERROR")]

/-- Reduction of an integer to the 64-bit two's complement range of
`intmax_t`, the type in which the preprocessor evaluates the expression of an
`#if`: the result is the integer congruent modulo 2^64 that lies between
-2^63 and 2^63 - 1. -/
def intmaxWrap (n : Int) : Int :=
  (n + 9223372036854775808) % 18446744073709551616 - 9223372036854775808

/-- The integer the preprocessor compares with 2006 on `sdl2.cpp` line 196:
`SDL_MAJOR_VERSION*1000 + SDL_MINOR_VERSION*100 + SDL_PATCHLEVEL` evaluated in
`intmax_t`, every literal and every intermediate result reduced to its range,
so that a product or sum beyond 2^63 - 1 wraps around. -/
def sdlVersionNumber (b : Sdl2Build) : Int :=
  intmaxWrap
    (intmaxWrap
      (intmaxWrap (intmaxWrap (b.SDL_MAJOR_VERSION : Int) * 1000) +
        intmaxWrap (intmaxWrap (b.SDL_MINOR_VERSION : Int) * 100)) +
      intmaxWrap (b.SDL_PATCHLEVEL : Int))

/-- The condition of the `#if` on `sdl2.cpp` line 196, with the comparison
made on the `intmax_t` value of the left-hand side. -/
def sdl2VulkanGuard (b : Sdl2Build) : Bool :=
  !b.CORRADE_TARGET_EMSCRIPTEN && decide (sdlVersionNumber b ≥ 2006)

/-- `sdl2.cpp` lines 177-200: `windowFlagMap`. The `Floating` and
`AllowHighDpi` lines are comments in the source and contribute nothing. -/
def Sdl2.windowFlagMap (b : Sdl2Build) : List (Sdl2WindowFlag × String) :=
  [(.Resizable, "RESIZABLE"), (.Contextless, "CONTEXTLESS"), (.OpenGL, "OPENGL")]
    ++ ifdef (!b.CORRADE_TARGET_EMSCRIPTEN)
        [(.Fullscreen, "FULLSCREEN"), (.Borderless, "BORDERLESS"), (.Hidden, "HIDDEN"),
         (.Maximized, "MAXIMIZED"), (.Minimized, "MINIMIZED"),
         (.MouseLocked, "MOUSE_LOCKED")]
    ++ ifdef (sdl2VulkanGuard b) [(.Vulkan, "VULKAN")]

/-- `sdl2.cpp` lines 202-211: `glConfigurationFlagMap`. -/
def Sdl2.glConfigurationFlagMap (b : Sdl2Build) : List (Sdl2GLFlag × String) :=
  [(.Debug, "DEBUG"), (.RobustAccess, "ROBUST_ACCESS"),
   (.ResetIsolation, "RESET_ISOLATION")]
    ++ ifdef (!b.MAGNUM_TARGET_GLES) [(.ForwardCompatible, "FORWARD_COMPATIBLE")]

/-- Modelled from the spec: the consumer of the tables, `application()` of
`magnum/platform/application.h`, is not part of the available sources. The
spec speaks of a bidirectional mapping between native enum values and name
strings; `flag_to_name` is the name of the first entry holding the flag. -/
def flag_to_name {α : Type} [DecidableEq α] (table : List (α × String)) (f : α) :
    Option String :=
  (table.find? (fun p => decide (p.1 = f))).map Prod.snd

/-- Modelled from the spec: see `flag_to_name`; `name_to_flag` is the flag of
the first entry registered under the name. -/
def name_to_flag {α : Type} (table : List (α × String)) (n : String) : Option α :=
  (table.find? (fun p => decide (p.2 = n))).map Prod.fst

/-- The native flags of a table, in order. -/
def tableFlags {α : Type} (table : List (α × String)) : List α := table.map Prod.fst

/-- The name strings of a table, in order. -/
def tableNames {α : Type} (table : List (α × String)) : List String := table.map Prod.snd

/-- A table is injective in both directions: no flag twice, no name twice, and
both round trips through the lookups are the identity on its entries. -/
def TableBijective {α : Type} [DecidableEq α] (table : List (α × String)) : Prop :=
  (tableFlags table).Nodup ∧ (tableNames table).Nodup ∧
  (∀ f ∈ tableFlags table, (flag_to_name table f).bind (name_to_flag table) = some f) ∧
  (∀ n ∈ tableNames table, (name_to_flag table n).bind (flag_to_name table) = some n)

/-- A non-Emscripten, deprecated build against SDL 2.0.10. -/
def sampleDeprecatedBuild : Sdl2Build :=
  { CORRADE_TARGET_EMSCRIPTEN := false, MAGNUM_TARGET_GLES := false,
    MAGNUM_BUILD_DEPRECATED := true,
    SDL_MAJOR_VERSION := 2, SDL_MINOR_VERSION := 0, SDL_PATCHLEVEL := 10 }

/-- A GLFW build in which `GLFW_MAXIMIZED` and `GLFW_NO_API` are defined. -/
def sampleGlfwBuild : GlfwBuild :=
  { GLFW_MAXIMIZED := true, GLFW_NO_API := true, GLFW_CONTEXT_NO_ERROR := false,
    MAGNUM_TARGET_GLES := false }

/-! ## Dispatch shim -/

/-- Address of a native event object: a C++ reference is the address of the
object it refers to. -/
abbrev Addr := Nat

/-- Modelled from the spec: the native `InputEvent` and its subclasses
`KeyEvent`, `MouseEvent`, `MouseMoveEvent`, `MouseScrollEvent` are declared in
the wrapped toolkit. The spec gives an event "read accessors" and "a mutator
to mark the event as accepted": `data` stands for what the accessors read. -/
structure InputEvent where
  accepted : Bool
  data : Nat
deriving DecidableEq, Repr

/-- Modelled from the spec: the mutator that marks the event as accepted. -/
def InputEvent.setAccepted (e : InputEvent) : InputEvent := { e with accepted := true }

/-- What callbacks act on: the native event objects by address and the state
`σ` of the application (native and embedding-language side). -/
structure Memory (σ : Type) where
  events : Addr → InputEvent
  app : σ

/-- Overwrite the event stored at an address. -/
def Memory.store {σ : Type} (m : Memory σ) (a : Addr) (e : InputEvent) : Memory σ :=
  { m with events := fun b => if b = a then e else m.events b }

/-- C++ exceptions that cross the shim: `pybind11::error_already_set` carries
the error an embedding-language function raised, `std::runtime_error` is what
`pybind11_fail` throws. -/
inductive Exception where
  | error_already_set (x : String)
  | runtime_error (what : String)
deriving DecidableEq, Repr

/-- An argument as the embedding-language function receives it: an alias of a
native object, or an object of its own holding a copy. -/
inductive PyArg where
  | reference (a : Addr)
  | copy (e : InputEvent)
deriving DecidableEq, Repr

/-- Modelled from the spec: `std::ref(event)`, from the C++ standard library.
The argument is marshalled as a reference to the caller's object (the
"reference/alias marshaling strategy" of the spec); the source comment on
lines 100-101 says that without it the event would be copied. -/
def std_ref (event : Addr) : PyArg := .reference event

/-- Result of running an embedding-language function: the memory it left and
the error it raised, if any. -/
structure PyResult (σ : Type) where
  mem : Memory σ
  raised : Option Exception

/-- An embedding-language function. -/
abbrev PyCallable (σ : Type) := List PyArg → Memory σ → PyResult σ

/-- The embedding-language object behind a `PyApplication`: the methods its
class defines, by name. -/
structure PyObject (σ : Type) where
  attr : String → Option (PyCallable σ)

/-- One invocation of an embedding-language override. -/
structure Invocation where
  name : String
  args : List PyArg
  raised : Option Exception
deriving DecidableEq, Repr

/-- Memory together with the record of override invocations so far. -/
structure World (σ : Type) where
  mem : Memory σ
  trace : List Invocation

/-- How a C++ call ends: the world it leaves, and the exception it throws, if
any. -/
structure Outcome (σ : Type) where
  world : World σ
  raised : Option Exception

/-- An empty C++ body: returns at once. -/
def Outcome.ret {σ : Type} (w : World σ) : Outcome σ := { world := w, raised := none }

/-- Modelled from the spec: the pybind11 lookup behind the dispatch forms,
which "determines whether the embedding-language object has provided its own
implementation": the override the object defines under the name, if any. -/
def get_overload {σ : Type} (self : PyObject σ) (name : String) : Option (PyCallable σ) :=
  self.attr name

/-- Modelled from the spec: the call of the override inside the pybind11
dispatch forms. It "invokes the override synchronously"; an error the override
raises leaves as an exception. -/
def callOverload {σ : Type} (name : String) (overload : PyCallable σ) (args : List PyArg)
    (w : World σ) : Outcome σ :=
  let r := overload args w.mem
  { world := { mem := r.mem,
               trace := w.trace ++ [{ name := name, args := args, raised := r.raised }] },
    raised := r.raised }

/-- Modelled from the spec: the block shared by both pybind11 dispatch forms,
defined in the pybind11 header and not in the sources. When an override
exists, call it and return; otherwise fall out of the block (`none`). -/
def PYBIND11_OVERLOAD_INT {σ : Type} (self : PyObject σ) (name : String)
    (args : List PyArg) (w : World σ) : Option (Outcome σ) :=
  match get_overload self name with
  | some overload => some (callOverload name overload args w)
  | none => none

/-- Modelled from the spec: `PYBIND11_OVERLOAD_NAME(ret, cname, name, fn,
args...)`, defined in the pybind11 header and not in the sources. Dispatch to
the override, else `return cname::fn(args...)`; `fn` is the base-class method
already applied to the arguments. -/
def PYBIND11_OVERLOAD_NAME {σ : Type} (self : PyObject σ) (name : String)
    (fn : World σ → Outcome σ) (args : List PyArg) (w : World σ) : Outcome σ :=
  match PYBIND11_OVERLOAD_INT self name args w with
  | some r => r
  | none => fn w

/-- Modelled from the spec: `pybind11_fail(reason)` of the pybind11 header:
throws `std::runtime_error(reason)`. -/
def pybind11_fail {σ : Type} (reason : String) (w : World σ) : Outcome σ :=
  { world := w, raised := some (.runtime_error reason) }

/-- Modelled from the spec: `PYBIND11_OVERLOAD_PURE_NAME(ret, cname, name,
fn, args...)`, defined in the pybind11 header and not in the sources. Dispatch
to the override as in `PYBIND11_OVERLOAD_NAME`; with no override there is no
base method to fall back to, and the form throws pybind11's pure-virtual
error. Whatever it does, it does when the method whose body it is runs. -/
def PYBIND11_OVERLOAD_PURE_NAME {σ : Type} (self : PyObject σ) (cname name : String)
    (args : List PyArg) (w : World σ) : Outcome σ :=
  match PYBIND11_OVERLOAD_INT self name args w with
  | some r => r
  | none =>
    pybind11_fail ("Tried to call pure virtual function \"" ++ cname ++ "::" ++ name ++ "\"") w

/-- `Arguments{argc, nullptr}`. -/
structure Arguments where
  argc : Int
  argv : Option (List String)
deriving DecidableEq, Repr

/-- The file-local `int argc = 0;`. -/
def argc : Int := 0

/-- A virtual callback the native loop invokes, with the event it passes by
reference. -/
inductive VirtualCall where
  | drawEvent
  | keyPressEvent (event : Addr)
  | keyReleaseEvent (event : Addr)
  | mousePressEvent (event : Addr)
  | mouseReleaseEvent (event : Addr)
  | mouseMoveEvent (event : Addr)
  | mouseScrollEvent (event : Addr)
deriving DecidableEq, Repr

/-- Modelled from the spec: native toolkit code that runs between the start
and the end of one blocking native call. Per the spec the loop is serial and
synchronous and does not catch what a callback throws, so such code is a tree:
it either finishes with a result in some memory, or invokes one virtual
callback in some memory and goes on from the memory the callback left. -/
inductive NativeProg (σ ρ : Type) where
  | ret (r : ρ) (m : Memory σ)
  | virt (m : Memory σ) (c : VirtualCall) (k : Memory σ → NativeProg σ ρ)

/-- Modelled from the spec: Magnum's `Int`, the type of the `interval`
parameter on `sdl2.cpp` line 166 and of the result of `swapInterval()`. Its
typedef is in the wrapped toolkit: a 32-bit signed integer, so a value of this
type lies between -2^31 and 2^31 - 1. -/
abbrev MagnumInt : Type := { i : Int // -2147483648 ≤ i ∧ i < 2147483648 }

/-- The value of the 32-bit integer congruent to `i` modulo 2^32; used to write
down sample native applications. -/
def MagnumInt.ofInt (i : Int) : MagnumInt :=
  ⟨(i + 2147483648) % 4294967296 - 2147483648, by omega⟩

/-- Modelled from the spec: the pybind11 conversion of an embedding-language
integer, which has no bound, to the 32-bit `Int` of a C++ parameter: the value
itself when it fits, nothing when it does not. -/
def castInt (i : Int) : Option MagnumInt :=
  if h : -2147483648 ≤ i ∧ i < 2147483648 then some ⟨i, h⟩ else none

/-- The members of the wrapped `Platform::Application` that the bindings call.
All of them are outside the sources and taken as parameters: `κ` and `γ` are
the native `Configuration` and `GLConfiguration`. -/
structure NativeApplication (σ κ γ : Type) where
  construct : Arguments → κ → γ → Except Exception σ
  swapInterval : σ → MagnumInt
  setSwapInterval : σ → MagnumInt → σ
  mainLoopIteration : Memory σ → NativeProg σ Bool
  exitCode : σ → Int

namespace Glfw

/-- `glfw.cpp` line 44: the constructor forwards to the native one. -/
def PublicizedApplication.new {σ κ γ : Type} (N : NativeApplication σ κ γ)
    (configuration : κ) (glConfiguration : γ) : Except Exception σ :=
  N.construct { argc := argc, argv := none } configuration glConfiguration

/-- `glfw.cpp` line 56. -/
def PublicizedApplication.keyPressEvent {σ : Type} (_event : Addr) (w : World σ) :
    Outcome σ := Outcome.ret w

/-- `glfw.cpp` line 57. -/
def PublicizedApplication.keyReleaseEvent {σ : Type} (_event : Addr) (w : World σ) :
    Outcome σ := Outcome.ret w

/-- `glfw.cpp` line 58. -/
def PublicizedApplication.mousePressEvent {σ : Type} (_event : Addr) (w : World σ) :
    Outcome σ := Outcome.ret w

/-- `glfw.cpp` line 59. -/
def PublicizedApplication.mouseReleaseEvent {σ : Type} (_event : Addr) (w : World σ) :
    Outcome σ := Outcome.ret w

/-- `glfw.cpp` line 60. -/
def PublicizedApplication.mouseMoveEvent {σ : Type} (_event : Addr) (w : World σ) :
    Outcome σ := Outcome.ret w

/-- `glfw.cpp` line 61. -/
def PublicizedApplication.mouseScrollEvent {σ : Type} (_event : Addr) (w : World σ) :
    Outcome σ := Outcome.ret w

/-- `glfw.cpp` line 69: `using PublicizedApplication::PublicizedApplication;`.
`self` is the embedding-language object under construction; the inherited
constructor does not look at it. -/
def PyApplication.new {σ κ γ : Type} (N : NativeApplication σ κ γ) (_self : PyObject σ)
    (configuration : κ) (glConfiguration : γ) : Except Exception σ :=
  PublicizedApplication.new N configuration glConfiguration

/-- `glfw.cpp` lines 71-88. -/
def PyApplication.drawEvent {σ : Type} (self : PyObject σ) (w : World σ) : Outcome σ :=
  PYBIND11_OVERLOAD_PURE_NAME self "PublicizedApplication" "draw_event" [] w

/-- `glfw.cpp` lines 94-104. -/
def PyApplication.keyPressEvent {σ : Type} (self : PyObject σ) (event : Addr)
    (w : World σ) : Outcome σ :=
  PYBIND11_OVERLOAD_NAME self "key_press_event"
    (PublicizedApplication.keyPressEvent event) [std_ref event] w

/-- `glfw.cpp` lines 105-115. -/
def PyApplication.keyReleaseEvent {σ : Type} (self : PyObject σ) (event : Addr)
    (w : World σ) : Outcome σ :=
  PYBIND11_OVERLOAD_NAME self "key_release_event"
    (PublicizedApplication.keyReleaseEvent event) [std_ref event] w

/-- `glfw.cpp` lines 117-127. -/
def PyApplication.mousePressEvent {σ : Type} (self : PyObject σ) (event : Addr)
    (w : World σ) : Outcome σ :=
  PYBIND11_OVERLOAD_NAME self "mouse_press_event"
    (PublicizedApplication.mousePressEvent event) [std_ref event] w

/-- `glfw.cpp` lines 128-138. -/
def PyApplication.mouseReleaseEvent {σ : Type} (self : PyObject σ) (event : Addr)
    (w : World σ) : Outcome σ :=
  PYBIND11_OVERLOAD_NAME self "mouse_release_event"
    (PublicizedApplication.mouseReleaseEvent event) [std_ref event] w

/-- `glfw.cpp` lines 139-149. -/
def PyApplication.mouseMoveEvent {σ : Type} (self : PyObject σ) (event : Addr)
    (w : World σ) : Outcome σ :=
  PYBIND11_OVERLOAD_NAME self "mouse_move_event"
    (PublicizedApplication.mouseMoveEvent event) [std_ref event] w

/-- `glfw.cpp` lines 150-160. -/
def PyApplication.mouseScrollEvent {σ : Type} (self : PyObject σ) (event : Addr)
    (w : World σ) : Outcome σ :=
  PYBIND11_OVERLOAD_NAME self "mouse_scroll_event"
    (PublicizedApplication.mouseScrollEvent event) [std_ref event] w

/-- Virtual dispatch on a `PyApplication`: the native caller reaches the
override of the callback it names. -/
def PyApplication.virtualCall {σ : Type} (self : PyObject σ) :
    VirtualCall → World σ → Outcome σ
  | .drawEvent => PyApplication.drawEvent self
  | .keyPressEvent e => PyApplication.keyPressEvent self e
  | .keyReleaseEvent e => PyApplication.keyReleaseEvent self e
  | .mousePressEvent e => PyApplication.mousePressEvent self e
  | .mouseReleaseEvent e => PyApplication.mouseReleaseEvent self e
  | .mouseMoveEvent e => PyApplication.mouseMoveEvent self e
  | .mouseScrollEvent e => PyApplication.mouseScrollEvent self e

end Glfw

namespace Sdl2

/-- `sdl2.cpp` line 44: the constructor forwards to the native one. -/
def PublicizedApplication.new {σ κ γ : Type} (N : NativeApplication σ κ γ)
    (configuration : κ) (glConfiguration : γ) : Except Exception σ :=
  N.construct { argc := argc, argv := none } configuration glConfiguration

/-- `sdl2.cpp` line 56. -/
def PublicizedApplication.keyPressEvent {σ : Type} (_event : Addr) (w : World σ) :
    Outcome σ := Outcome.ret w

/-- `sdl2.cpp` line 57. -/
def PublicizedApplication.keyReleaseEvent {σ : Type} (_event : Addr) (w : World σ) :
    Outcome σ := Outcome.ret w

/-- `sdl2.cpp` line 58. -/
def PublicizedApplication.mousePressEvent {σ : Type} (_event : Addr) (w : World σ) :
    Outcome σ := Outcome.ret w

/-- `sdl2.cpp` line 59. -/
def PublicizedApplication.mouseReleaseEvent {σ : Type} (_event : Addr) (w : World σ) :
    Outcome σ := Outcome.ret w

/-- `sdl2.cpp` line 60. -/
def PublicizedApplication.mouseMoveEvent {σ : Type} (_event : Addr) (w : World σ) :
    Outcome σ := Outcome.ret w

/-- `sdl2.cpp` line 61. -/
def PublicizedApplication.mouseScrollEvent {σ : Type} (_event : Addr) (w : World σ) :
    Outcome σ := Outcome.ret w

/-- `sdl2.cpp` line 69: `using PublicizedApplication::PublicizedApplication;`.
`self` is the embedding-language object under construction; the inherited
constructor does not look at it. -/
def PyApplication.new {σ κ γ : Type} (N : NativeApplication σ κ γ) (_self : PyObject σ)
    (configuration : κ) (glConfiguration : γ) : Except Exception σ :=
  PublicizedApplication.new N configuration glConfiguration

/-- `sdl2.cpp` lines 71-88. -/
def PyApplication.drawEvent {σ : Type} (self : PyObject σ) (w : World σ) : Outcome σ :=
  PYBIND11_OVERLOAD_PURE_NAME self "PublicizedApplication" "draw_event" [] w

/-- `sdl2.cpp` lines 94-104. -/
def PyApplication.keyPressEvent {σ : Type} (self : PyObject σ) (event : Addr)
    (w : World σ) : Outcome σ :=
  PYBIND11_OVERLOAD_NAME self "key_press_event"
    (PublicizedApplication.keyPressEvent event) [std_ref event] w

/-- `sdl2.cpp` lines 105-115. -/
def PyApplication.keyReleaseEvent {σ : Type} (self : PyObject σ) (event : Addr)
    (w : World σ) : Outcome σ :=
  PYBIND11_OVERLOAD_NAME self "key_release_event"
    (PublicizedApplication.keyReleaseEvent event) [std_ref event] w

/-- `sdl2.cpp` lines 117-127. -/
def PyApplication.mousePressEvent {σ : Type} (self : PyObject σ) (event : Addr)
    (w : World σ) : Outcome σ :=
  PYBIND11_OVERLOAD_NAME self "mouse_press_event"
    (PublicizedApplication.mousePressEvent event) [std_ref event] w

/-- `sdl2.cpp` lines 128-138. -/
def PyApplication.mouseReleaseEvent {σ : Type} (self : PyObject σ) (event : Addr)
    (w : World σ) : Outcome σ :=
  PYBIND11_OVERLOAD_NAME self "mouse_release_event"
    (PublicizedApplication.mouseReleaseEvent event) [std_ref event] w

/-- `sdl2.cpp` lines 139-149. -/
def PyApplication.mouseMoveEvent {σ : Type} (self : PyObject σ) (event : Addr)
    (w : World σ) : Outcome σ :=
  PYBIND11_OVERLOAD_NAME self "mouse_move_event"
    (PublicizedApplication.mouseMoveEvent event) [std_ref event] w

/-- `sdl2.cpp` lines 150-160. -/
def PyApplication.mouseScrollEvent {σ : Type} (self : PyObject σ) (event : Addr)
    (w : World σ) : Outcome σ :=
  PYBIND11_OVERLOAD_NAME self "mouse_scroll_event"
    (PublicizedApplication.mouseScrollEvent event) [std_ref event] w

/-- Virtual dispatch on a `PyApplication`: the native caller reaches the
override of the callback it names. -/
def PyApplication.virtualCall {σ : Type} (self : PyObject σ) :
    VirtualCall → World σ → Outcome σ
  | .drawEvent => PyApplication.drawEvent self
  | .keyPressEvent e => PyApplication.keyPressEvent self e
  | .keyReleaseEvent e => PyApplication.keyReleaseEvent self e
  | .mousePressEvent e => PyApplication.mousePressEvent self e
  | .mouseReleaseEvent e => PyApplication.mouseReleaseEvent self e
  | .mouseMoveEvent e => PyApplication.mouseMoveEvent self e
  | .mouseScrollEvent e => PyApplication.mouseScrollEvent self e

end Sdl2

/-! ## Native loop, registered members -/

/-- Modelled from the spec: how native code of the wrapped toolkit runs
against the virtual table of the application object. A callback that returns
lets the native code go on; a callback that throws ends the native call with
that exception ("the loop must not catch and suppress it"). -/
def NativeProg.run {σ ρ : Type} (virtualCall : VirtualCall → World σ → Outcome σ) :
    NativeProg σ ρ → List Invocation → World σ × Except Exception ρ
  | .ret r m, t => ({ mem := m, trace := t }, .ok r)
  | .virt m c k, t =>
    match virtualCall c { mem := m, trace := t } with
    | { world := w, raised := some x } => (w, .error x)
    | { world := w, raised := none } => (k w.mem).run virtualCall w.trace

/-- Modelled from the spec: a pybind11 `def_property` registration, "a
read/write property": name, getter, setter, docstring. -/
structure PyProperty (Self Val : Type) where
  name : String
  fget : Self → Val
  fset : Self → Val → Self
  doc : String

/-- Modelled from the spec: a pybind11 `def` registration of an instance
method without arguments: name, function, docstring. -/
structure PyMethod (Self Res : Type) where
  name : String
  call : Self → Res
  doc : String

/-- Modelled from the spec: attribute read on an instance ("GET"), the getter
of the property registered under the name. -/
def getattr {Self Val : Type} (props : List (PyProperty Self Val)) (name : String)
    (self : Self) : Option Val :=
  (props.find? (fun p => decide (p.name = name))).map (fun p => p.fget self)

/-- Modelled from the spec: attribute assignment on an instance ("SET"), the
setter of the property registered under the name. -/
def setattr {Self Val : Type} (props : List (PyProperty Self Val)) (name : String)
    (self : Self) (v : Val) : Option Self :=
  (props.find? (fun p => decide (p.name = name))).map (fun p => p.fset self v)

/-- How the assignment of an embedding-language integer to a property ends:
no property of that name, an integer the setter's parameter type cannot hold
(the setter is not called), or the object the setter left. -/
inductive IntAssignment (Self : Type) where
  | attributeError
  | typeError
  | assigned (self : Self)
deriving DecidableEq, Repr

/-- Modelled from the spec: assignment ("SET") of an embedding-language
integer to a property whose setter takes the 32-bit `Int`. pybind11 converts
the integer to the parameter type first and calls the setter with the converted
value; an integer that does not fit is refused with a type error and the
setter is not called. -/
def assignInt {Self : Type} (props : List (PyProperty Self MagnumInt)) (name : String)
    (self : Self) (i : Int) : IntAssignment Self :=
  match props.find? (fun p => decide (p.name = name)) with
  | none => .attributeError
  | some p =>
    match castInt i with
    | none => .typeError
    | some v => .assigned (p.fset self v)

/-- Modelled from the spec: method call on an instance, the function
registered under the name. -/
def callMethod {Self Res : Type} (methods : List (PyMethod Self Res)) (name : String)
    (self : Self) : Option Res :=
  (methods.find? (fun p => decide (p.name = name))).map (fun p => p.call self)

namespace Sdl2

/-- `sdl2.cpp` line 169: `&PyApplication::mainLoopIteration`, the native
iteration run on the object whose virtual callbacks are the shims. -/
def PyApplication.mainLoopIteration {σ κ γ : Type} (N : NativeApplication σ κ γ)
    (self : PyObject σ) (w : World σ) : World σ × Except Exception Bool :=
  (N.mainLoopIteration w.mem).run (PyApplication.virtualCall self) w.trace

/-- `sdl2.cpp` lines 164-168: the properties registered on `sdl2application`
by this file. The setter is the lambda of lines 166-168, whose `interval`
parameter has the 32-bit type `Int`. -/
def sdl2application_properties {σ κ γ : Type} (N : NativeApplication σ κ γ) :
    List (PyProperty σ MagnumInt) :=
  [{ name := "swap_interval",
     fget := N.swapInterval,
     fset := fun self interval => N.setSwapInterval self interval,
     doc := "Swap interval" }]

/-- `sdl2.cpp` line 169: the methods registered on `sdl2application` by this
file. The receiver is the embedding-language object with the world it runs
in. -/
def sdl2application_methods {σ κ γ : Type} (N : NativeApplication σ κ γ) :
    List (PyMethod (PyObject σ × World σ) (World σ × Except Exception Bool)) :=
  [{ name := "main_loop_iteration",
     call := fun self => PyApplication.mainLoopIteration N self.1 self.2,
     doc := "Run one iteration of application main loop" }]

/-- Modelled from the spec: `exec` of the wrapped application is outside the
sources. The spec: it "blocks the calling thread until the native loop
requests termination", `main_loop_iteration` being the "single-step variant"
whose status says whether the loop should continue; its result is the exit
code. `fuel` bounds the number of iterations; `none` means the loop has not
ended within the bound. -/
def exec {σ κ γ : Type} (N : NativeApplication σ κ γ) (self : PyObject σ) :
    Nat → World σ → Option (World σ × Except Exception Int)
  | 0, _ => none
  | fuel + 1, w =>
    match (N.mainLoopIteration w.mem).run (PyApplication.virtualCall self) w.trace with
    | (w1, .error x) => some (w1, .error x)
    | (w1, .ok false) => some (w1, .ok (N.exitCode w1.mem.app))
    | (w1, .ok true) => exec N self fuel w1

/-- What a caller that drives the loop by hand has seen when it stops: the
override invocations of each `main_loop_iteration()` call, the memory left,
and the error that ended the last call, if one did. -/
structure Stepped (σ : Type) where
  perCall : List (List Invocation)
  mem : Memory σ
  raised : Option Exception

/-- The embedding-language loop `while app.main_loop_iteration(): pass`: calls
the registered method until it returns false or raises. Each call is observed
on its own (it starts from an empty record). -/
def mainLoopIterations {σ κ γ : Type} (N : NativeApplication σ κ γ) (self : PyObject σ) :
    Nat → Memory σ → Option (Stepped σ)
  | 0, _ => none
  | fuel + 1, m =>
    match callMethod (sdl2application_methods N) "main_loop_iteration"
        (self, { mem := m, trace := [] }) with
    | none => none
    | some (w1, .error x) => some { perCall := [w1.trace], mem := w1.mem, raised := some x }
    | some (w1, .ok false) => some { perCall := [w1.trace], mem := w1.mem, raised := none }
    | some (w1, .ok true) =>
      (mainLoopIterations N self fuel w1.mem).map
        (fun r => { r with perCall := w1.trace :: r.perCall })

end Sdl2

namespace Glfw

/-- `glfw.cpp` lines 163-164: this file registers no property on
`glfwApplication`; `swap_interval` is left as a todo. -/
def glfwApplication_properties {σ κ γ : Type} (_N : NativeApplication σ κ γ) :
    List (PyProperty σ MagnumInt) := []

/-- `glfw.cpp` lines 163-164: this file registers no method on
`glfwApplication`. -/
def glfwApplication_methods {σ κ γ : Type} (_N : NativeApplication σ κ γ) :
    List (PyMethod (PyObject σ × World σ) (World σ × Except Exception Bool)) := []

end Glfw

/-! ## Windowless application -/

/-- Modelled from the spec: `Configuration::Flags`, declared in the wrapped
toolkit, a set of "enumerated bit-flags": the bitwise OR of the values of the
flags it holds. -/
structure Flags where
  bits : Nat
deriving DecidableEq, Repr

/-- Modelled from the spec: the set operators come from
`corrade/EnumOperators.h`, which is outside the sources; the spec asks for
bitwise OR, AND and XOR over the flag set type. -/
def Flags.or (a b : Flags) : Flags := { bits := a.bits ||| b.bits }

/-- Modelled from the spec: see `Flags.or`. -/
def Flags.and (a b : Flags) : Flags := { bits := a.bits &&& b.bits }

/-- Modelled from the spec: see `Flags.or`. -/
def Flags.xor (a b : Flags) : Flags := { bits := a.bits ^^^ b.bits }

/-- The set holding the single flag whose native value is the bit `bit`. -/
def Flags.single (bit : Nat) : Flags := { bits := 2 ^ bit }

/-- Whether the set holds every bit of `v`. -/
def Flags.contains (F v : Flags) : Prop := (F.and v) = v

/-- Modelled from the spec: `T::Configuration` is a member of the template
parameter, declared in the wrapped toolkit; the spec describes a configuration
as "a plain value/struct with named fields". `others` stands for the fields
the binding does not touch. -/
structure WindowlessConfiguration (ω : Type) where
  flags_ : Flags
  others : ω

/-- Modelled from the spec: native `Configuration::flags()`, the read of the
named field. -/
def WindowlessConfiguration.flags {ω : Type} (c : WindowlessConfiguration ω) : Flags :=
  c.flags_

/-- Modelled from the spec: native `Configuration::setFlags(flags)`, the
write of the named field. -/
def WindowlessConfiguration.setFlags {ω : Type} (c : WindowlessConfiguration ω)
    (flags : Flags) : WindowlessConfiguration ω :=
  { c with flags_ := flags }

/-- `windowlessapplication.h` lines 35-40: the properties registered on
`configuration`. -/
def configuration_properties {ω : Type} : List (PyProperty (WindowlessConfiguration ω) Flags) :=
  [{ name := "flags",
     fget := WindowlessConfiguration.flags,
     fset := fun self flags => self.setFlags flags,
     doc := "Flags" }]


/-! ## Properties stated about the shim, and sample inputs -/

/-- Contract of the shim of an optional callback registered under `name`: with
an override, exactly one invocation of it with an alias of the event is added
to the record and the call ends as the override ended; without one, the call
returns at once and changes nothing. -/
def DispatchesOptional {σ : Type} (shim : PyObject σ → Addr → World σ → Outcome σ)
    (name : String) : Prop :=
  ∀ (self : PyObject σ) (e : Addr) (w : World σ),
    (∀ f, self.attr name = some f →
      shim self e w =
        { world :=
            { mem := (f [.reference e] w.mem).mem,
              trace := w.trace ++
                [{ name := name, args := [.reference e],
                   raised := (f [.reference e] w.mem).raised }] },
          raised := (f [.reference e] w.mem).raised }) ∧
    (self.attr name = none → shim self e w = { world := w, raised := none })

/-- An embedding-language function marks the event it receives as accepted:
whatever else it does, the object behind the reference it was given is
accepted when it ends. -/
def MarksAccepted {σ : Type} (f : PyCallable σ) : Prop :=
  ∀ (a : Addr) (m : Memory σ), ((f [.reference a] m).mem.events a).accepted = true

/-- Mutation visibility for the shim of the callback registered under `name`:
the override is handed a reference to the caller's own event, the memory the
caller sees afterwards is the memory the override left, and an override that
marks its event accepted leaves the caller's event accepted. -/
def MutationVisible {σ : Type} (shim : PyObject σ → Addr → World σ → Outcome σ)
    (name : String) : Prop :=
  ∀ (self : PyObject σ) (e : Addr) (w : World σ) (f : PyCallable σ),
    self.attr name = some f →
      (shim self e w).world.trace =
          w.trace ++ [{ name := name, args := [.reference e],
                        raised := (f [.reference e] w.mem).raised }] ∧
      (shim self e w).world.mem = (f [.reference e] w.mem).mem ∧
      (MarksAccepted f → ((shim self e w).world.mem.events e).accepted = true)

/-- Failure propagation for the shim of the callback registered under `name`:
an error raised by the override is the exception the shim ends with, after
that single invocation. -/
def PropagatesFailure {σ : Type} (shim : PyObject σ → Addr → World σ → Outcome σ)
    (name : String) : Prop :=
  ∀ (self : PyObject σ) (e : Addr) (w : World σ) (f : PyCallable σ) (x : Exception),
    self.attr name = some f → (f [.reference e] w.mem).raised = some x →
      (shim self e w).raised = some x ∧
      (shim self e w).world.trace =
        w.trace ++ [{ name := name, args := [.reference e], raised := some x }]

/-- The error an ended call carries, if any. -/
def errorOf {α : Type} : Except Exception α → Option Exception
  | .error x => some x
  | .ok _ => none

/-- An object whose class defines no method. -/
def noOverrides {σ : Type} : PyObject σ := { attr := fun _ => none }

/-- An object whose class defines the single method `name`. -/
def withOverride {σ : Type} (name : String) (f : PyCallable σ) : PyObject σ :=
  { attr := fun n => if n = name then some f else none }

/-- A sample override: marks the event it is given as accepted. Given a copy,
it marks the copy, which nobody else sees. -/
def acceptingOverride {σ : Type} : PyCallable σ := fun args m =>
  match args with
  | [.reference a] => { mem := m.store a (m.events a).setAccepted, raised := none }
  | _ => { mem := m, raised := none }

/-- A sample override: raises `x` without touching anything. -/
def raisingOverride {σ : Type} (x : String) : PyCallable σ := fun _ m =>
  { mem := m, raised := some (.error_already_set x) }

/-- A sample native application over a state that logs the swap intervals it
was asked to set: construction succeeds, the current swap interval is the last
one set, one loop iteration delivers a scroll event at address 0 and asks to
stop. -/
def sampleNative : NativeApplication (List Int) Unit Unit :=
  { construct := fun _ _ _ => .ok [],
    swapInterval := fun s => MagnumInt.ofInt (s.getLastD 0),
    setSwapInterval := fun s i => s ++ [i.val],
    mainLoopIteration := fun m => .virt m (.mouseScrollEvent 0) (fun m1 => .ret false m1),
    exitCode := fun _ => 0 }

/-- A sample memory: every event is unaccepted. -/
def sampleMemory : Memory (List Int) :=
  { events := fun _ => { accepted := false, data := 0 }, app := [] }

/-- A sample world: `sampleMemory` and nothing invoked yet. -/
def sampleWorld : World (List Int) := { mem := sampleMemory, trace := [] }


/-- A native call that ended as `r`, started with the record `before`: the
record only grew, and every override invocation added on the way that raised
some `x` made the call end with `x` instead of a status. -/
def FailureEndsCall {σ ρ : Type} (before : List Invocation)
    (r : World σ × Except Exception ρ) : Prop :=
  ∃ new : List Invocation, r.1.trace = before ++ new ∧
    ∀ i ∈ new, ∀ x, i.raised = some x → r.2 = .error x

/-- The virtual table records what it raises: a call adds invocations to the
record, each of which ended the way the call ends. -/
def RaisesRecorded {σ : Type} (vc : VirtualCall → World σ → Outcome σ) : Prop :=
  ∀ c w, ∃ d : List Invocation, (vc c w).world.trace = w.trace ++ d ∧
    ∀ i ∈ d, i.raised = (vc c w).raised

/-- The virtual table does not read the record: run after a record `t`, a call
does what it does after the empty record, with `t` in front. -/
def TraceFramed {σ : Type} (vc : VirtualCall → World σ → Outcome σ) : Prop :=
  ∀ c m t, vc c { mem := m, trace := t } =
    { world := { mem := (vc c { mem := m, trace := [] }).world.mem,
                 trace := t ++ (vc c { mem := m, trace := [] }).world.trace },
      raised := (vc c { mem := m, trace := [] }).raised }

/-- A sample native loop over a counter: the first iteration delivers a key
press at address 1, draws and asks to continue; any later iteration draws and
asks to stop. -/
def sampleLoop : NativeApplication Nat Unit Unit :=
  { construct := fun _ _ _ => .ok 0,
    swapInterval := fun _ => MagnumInt.ofInt 0,
    setSwapInterval := fun s _ => s,
    mainLoopIteration := fun m =>
      if m.app = 0 then
        .virt m (.keyPressEvent 1)
          (fun m1 => .virt m1 .drawEvent (fun m2 => .ret true { m2 with app := 1 }))
      else .virt m .drawEvent (fun m2 => .ret false m2),
    exitCode := fun s => s }

/-- A sample object: draw_event does nothing, key_press_event accepts. -/
def sampleObject : PyObject Nat :=
  { attr := fun n =>
      if n = "draw_event" then some (fun _ m => { mem := m, raised := none })
      else if n = "key_press_event" then some acceptingOverride
      else none }

/-- Initial memory for `sampleLoop`. -/
def sampleLoopMemory : Memory Nat :=
  { events := fun _ => { accepted := false, data := 0 }, app := 0 }

/-- A sample native application whose loop iteration invokes nothing and asks
to continue; its state logs the swap intervals it was asked to set. -/
def idleNative : NativeApplication (List Int) Unit Unit :=
  { construct := fun _ _ _ => .ok [],
    swapInterval := fun s => MagnumInt.ofInt (s.getLastD 0),
    setSwapInterval := fun s i => s ++ [i.val],
    mainLoopIteration := fun m => .ret true m,
    exitCode := fun _ => 0 }

/-! ## SDL version test -/

/-- The version triple `(major, minor, patch)` the SDL headers of a build
define. -/
def sdlVersion (b : Sdl2Build) : Nat × Nat × Nat :=
  (b.SDL_MAJOR_VERSION, b.SDL_MINOR_VERSION, b.SDL_PATCHLEVEL)

/-- Version comparison as versions are ordered: `v` is at least `w` in the
lexicographic order on `(major, minor, patch)`. -/
def versionAtLeast (v w : Nat × Nat × Nat) : Bool :=
  decide (v.1 > w.1) ||
    (decide (v.1 = w.1) &&
      (decide (v.2.1 > w.2.1) || (decide (v.2.1 = w.2.1) && decide (v.2.2 ≥ w.2.2))))

/-- The version number as a plain natural number, without any bound: what the
test on `sdl2.cpp` line 196 would compare if the arithmetic never overflowed. -/
def sdlVersionNat (b : Sdl2Build) : Nat :=
  b.SDL_MAJOR_VERSION * 1000 + b.SDL_MINOR_VERSION * 100 + b.SDL_PATCHLEVEL

/-- A non-Emscripten build whose SDL major version is 2^63 - 1, the largest
literal `intmax_t` holds. -/
def sampleHugeSdlBuild : Sdl2Build :=
  { CORRADE_TARGET_EMSCRIPTEN := false, MAGNUM_TARGET_GLES := false,
    MAGNUM_BUILD_DEPRECATED := false,
    SDL_MAJOR_VERSION := 9223372036854775807, SDL_MINOR_VERSION := 0, SDL_PATCHLEVEL := 0 }

/-- A non-Emscripten build against SDL 2.0.5, the last release before the
Vulkan window flag. -/
def sampleOldSdlBuild : Sdl2Build :=
  { CORRADE_TARGET_EMSCRIPTEN := false, MAGNUM_TARGET_GLES := false,
    MAGNUM_BUILD_DEPRECATED := false,
    SDL_MAJOR_VERSION := 2, SDL_MINOR_VERSION := 0, SDL_PATCHLEVEL := 5 }

/-- An Emscripten build against SDL 2.0.10. -/
def sampleEmscriptenBuild : Sdl2Build :=
  { CORRADE_TARGET_EMSCRIPTEN := true, MAGNUM_TARGET_GLES := true,
    MAGNUM_BUILD_DEPRECATED := false,
    SDL_MAJOR_VERSION := 2, SDL_MINOR_VERSION := 0, SDL_PATCHLEVEL := 10 }

/-! ## The two shims side by side -/

namespace Glfw

/-- `glfw.cpp` lines 50-54: `drawEvent` of `PublicizedApplication` has the
empty body where `_MSC_VER` is defined and is pure virtual, without a body,
elsewhere. -/
def PublicizedApplication.drawEvent {σ : Type} (_MSC_VER : Bool) :
    Option (World σ → Outcome σ) :=
  if _MSC_VER then some Outcome.ret else none

/-- Virtual dispatch on a `PublicizedApplication` (`glfw.cpp` lines 50-61):
the base-class body of the callback the caller names, where it has one. -/
def PublicizedApplication.virtualCall {σ : Type} (_MSC_VER : Bool) :
    VirtualCall → Option (World σ → Outcome σ)
  | .drawEvent => PublicizedApplication.drawEvent _MSC_VER
  | .keyPressEvent e => some (PublicizedApplication.keyPressEvent e)
  | .keyReleaseEvent e => some (PublicizedApplication.keyReleaseEvent e)
  | .mousePressEvent e => some (PublicizedApplication.mousePressEvent e)
  | .mouseReleaseEvent e => some (PublicizedApplication.mouseReleaseEvent e)
  | .mouseMoveEvent e => some (PublicizedApplication.mouseMoveEvent e)
  | .mouseScrollEvent e => some (PublicizedApplication.mouseScrollEvent e)

end Glfw

namespace Sdl2

/-- `sdl2.cpp` lines 50-54: `drawEvent` of `PublicizedApplication` has the
empty body where `_MSC_VER` is defined and is pure virtual, without a body,
elsewhere. -/
def PublicizedApplication.drawEvent {σ : Type} (_MSC_VER : Bool) :
    Option (World σ → Outcome σ) :=
  if _MSC_VER then some Outcome.ret else none

/-- Virtual dispatch on a `PublicizedApplication` (`sdl2.cpp` lines 50-61):
the base-class body of the callback the caller names, where it has one. -/
def PublicizedApplication.virtualCall {σ : Type} (_MSC_VER : Bool) :
    VirtualCall → Option (World σ → Outcome σ)
  | .drawEvent => PublicizedApplication.drawEvent _MSC_VER
  | .keyPressEvent e => some (PublicizedApplication.keyPressEvent e)
  | .keyReleaseEvent e => some (PublicizedApplication.keyReleaseEvent e)
  | .mousePressEvent e => some (PublicizedApplication.mousePressEvent e)
  | .mouseReleaseEvent e => some (PublicizedApplication.mouseReleaseEvent e)
  | .mouseMoveEvent e => some (PublicizedApplication.mouseMoveEvent e)
  | .mouseScrollEvent e => some (PublicizedApplication.mouseScrollEvent e)

end Sdl2

/-- The C++ name of the virtual method a native call reaches. -/
def VirtualCall.methodName : VirtualCall → String
  | .drawEvent => "drawEvent"
  | .keyPressEvent _ => "keyPressEvent"
  | .keyReleaseEvent _ => "keyReleaseEvent"
  | .mousePressEvent _ => "mousePressEvent"
  | .mouseReleaseEvent _ => "mouseReleaseEvent"
  | .mouseMoveEvent _ => "mouseMoveEvent"
  | .mouseScrollEvent _ => "mouseScrollEvent"

/-- The arguments the shim of a virtual method hands to the override: none for
`drawEvent`, `std::ref(event)` for the others. -/
def VirtualCall.args : VirtualCall → List PyArg
  | .drawEvent => []
  | .keyPressEvent e => [std_ref e]
  | .keyReleaseEvent e => [std_ref e]
  | .mousePressEvent e => [std_ref e]
  | .mouseReleaseEvent e => [std_ref e]
  | .mouseMoveEvent e => [std_ref e]
  | .mouseScrollEvent e => [std_ref e]

/-- The seven virtual methods `PyApplication` overrides, in source order. -/
def virtualMethodNames : List String :=
  ["drawEvent", "keyPressEvent", "keyReleaseEvent", "mousePressEvent", "mouseReleaseEvent",
   "mouseMoveEvent", "mouseScrollEvent"]

/-- The snake_case form of a camelCase identifier: every upper-case letter
becomes an underscore followed by the letter in lower case. -/
def snake_case (s : String) : String :=
  String.mk (s.toList.flatMap (fun c => if c.isUpper then ['_', c.toLower] else [c]))

/-- A shim looks up `name`: whenever the object defines an override under that
name, the shim is the call of that override with `args`. -/
def LooksUp {σ : Type} (shim : PyObject σ → World σ → Outcome σ) (name : String)
    (args : List PyArg) : Prop :=
  ∀ (self : PyObject σ) (w : World σ) (f : PyCallable σ),
    self.attr name = some f → shim self w = callOverload name f args w

/-- A shim falls back to a default: the base class has a body for the
callback, and on an object without an override under `name` the shim does what
that body does. -/
def FallsBackTo {σ : Type} (shim : PyObject σ → World σ → Outcome σ) (name : String)
    (default : Option (World σ → Outcome σ)) : Prop :=
  ∃ d : World σ → Outcome σ, default = some d ∧
    ∀ (self : PyObject σ) (w : World σ), self.attr name = none → shim self w = d w

/-! # Theorems -/

/-! ### Lookup lemmas -/

theorem flag_to_name_of_mem {α : Type} [DecidableEq α] :
    ∀ (table : List (α × String)), (tableFlags table).Nodup →
      ∀ p ∈ table, flag_to_name table p.1 = some p.2 := by
  intro table
  induction table with
  | nil => intro _ p hp; cases hp
  | cons q rest ih =>
    intro hnd p hp
    have hnd2 : q.1 ∉ tableFlags rest ∧ (tableFlags rest).Nodup := by
      simpa [tableFlags] using hnd
    by_cases hq : q.1 = p.1
    · have hpq : p = q := by
        rcases List.mem_cons.1 hp with h | h
        · exact h
        · exact absurd (hq ▸ List.mem_map_of_mem Prod.fst h) hnd2.1
      subst hpq
      simp [flag_to_name, List.find?]
    · have hp2 : p ∈ rest := by
        rcases List.mem_cons.1 hp with h | h
        · exact absurd (h ▸ rfl) hq
        · exact h
      have := ih hnd2.2 p hp2
      simpa [flag_to_name, List.find?, hq] using this

theorem name_to_flag_of_mem {α : Type} :
    ∀ (table : List (α × String)), (tableNames table).Nodup →
      ∀ p ∈ table, name_to_flag table p.2 = some p.1 := by
  intro table
  induction table with
  | nil => intro _ p hp; cases hp
  | cons q rest ih =>
    intro hnd p hp
    have hnd2 : q.2 ∉ tableNames rest ∧ (tableNames rest).Nodup := by
      simpa [tableNames] using hnd
    by_cases hq : q.2 = p.2
    · have hpq : p = q := by
        rcases List.mem_cons.1 hp with h | h
        · exact h
        · exact absurd (hq ▸ List.mem_map_of_mem Prod.snd h) hnd2.1
      subst hpq
      simp [name_to_flag, List.find?]
    · have hp2 : p ∈ rest := by
        rcases List.mem_cons.1 hp with h | h
        · exact absurd (h ▸ rfl) hq
        · exact h
      have := ih hnd2.2 p hp2
      simpa [name_to_flag, List.find?, hq] using this

theorem tableBijective_of_nodup {α : Type} [DecidableEq α] (table : List (α × String))
    (hf : (tableFlags table).Nodup) (hn : (tableNames table).Nodup) :
    TableBijective table := by
  refine ⟨hf, hn, ?_, ?_⟩
  · intro f hfm
    obtain ⟨p, hp, rfl⟩ := List.mem_map.1 hfm
    rw [flag_to_name_of_mem table hf p hp]
    exact name_to_flag_of_mem table hn p hp
  · intro n hnm
    obtain ⟨p, hp, rfl⟩ := List.mem_map.1 hnm
    rw [name_to_flag_of_mem table hn p hp]
    exact flag_to_name_of_mem table hf p hp

theorem glfw_windowFlagMap_nodup (b : GlfwBuild) :
    (tableFlags (Glfw.windowFlagMap b)).Nodup ∧ (tableNames (Glfw.windowFlagMap b)).Nodup := by
  rcases b with ⟨a, c, d, e⟩
  cases a <;> cases c <;> cases d <;> cases e <;> exact ⟨by decide, by decide⟩

theorem glfw_glConfigurationFlagMap_nodup (b : GlfwBuild) :
    (tableFlags (Glfw.glConfigurationFlagMap b)).Nodup ∧
      (tableNames (Glfw.glConfigurationFlagMap b)).Nodup := by
  rcases b with ⟨a, c, d, e⟩
  cases a <;> cases c <;> cases d <;> cases e <;> exact ⟨by decide, by decide⟩

theorem sdl2_windowFlagMap_nodup (b : Sdl2Build) :
    (tableFlags (Sdl2.windowFlagMap b)).Nodup ∧ (tableNames (Sdl2.windowFlagMap b)).Nodup := by
  unfold Sdl2.windowFlagMap
  generalize sdl2VulkanGuard b = v
  generalize b.CORRADE_TARGET_EMSCRIPTEN = a
  cases a <;> cases v <;> exact ⟨by decide, by decide⟩

theorem sdl2_glConfigurationFlagMap_nodup (b : Sdl2Build) :
    (tableFlags (Sdl2.glConfigurationFlagMap b)).Nodup ∧
      (tableNames (Sdl2.glConfigurationFlagMap b)).Nodup := by
  unfold Sdl2.glConfigurationFlagMap
  generalize b.MAGNUM_TARGET_GLES = c
  cases c <;> exact ⟨by decide, by decide⟩

/-- C1: in every build configuration each of the four registered flag tables
(GLFW window flags, GLFW GL-configuration flags, SDL2 window flags, SDL2
GL-configuration flags) holds no native flag twice and no name twice, and both
lookups round-trip: name_to_flag (flag_to_name f) = f for every flag of the
table and flag_to_name (name_to_flag n) = n for every name of the table. -/
theorem flag_tables_bijective :
    (∀ b : GlfwBuild, TableBijective (Glfw.windowFlagMap b) ∧
        TableBijective (Glfw.glConfigurationFlagMap b)) ∧
    (∀ b : Sdl2Build, TableBijective (Sdl2.windowFlagMap b) ∧
        TableBijective (Sdl2.glConfigurationFlagMap b)) := by
  refine ⟨fun b => ⟨?_, ?_⟩, fun b => ⟨?_, ?_⟩⟩
  · exact tableBijective_of_nodup _ (glfw_windowFlagMap_nodup b).1 (glfw_windowFlagMap_nodup b).2
  · exact tableBijective_of_nodup _ (glfw_glConfigurationFlagMap_nodup b).1
      (glfw_glConfigurationFlagMap_nodup b).2
  · exact tableBijective_of_nodup _ (sdl2_windowFlagMap_nodup b).1 (sdl2_windowFlagMap_nodup b).2
  · exact tableBijective_of_nodup _ (sdl2_glConfigurationFlagMap_nodup b).1
      (sdl2_glConfigurationFlagMap_nodup b).2

/-! ### Dispatch lemmas -/

theorem overload_name_some {σ : Type} (self : PyObject σ) (name : String)
    (fn : World σ → Outcome σ) (args : List PyArg) (w : World σ) (f : PyCallable σ)
    (h : self.attr name = some f) :
    PYBIND11_OVERLOAD_NAME self name fn args w = callOverload name f args w := by
  simp [PYBIND11_OVERLOAD_NAME, PYBIND11_OVERLOAD_INT, get_overload, h]

theorem overload_name_none {σ : Type} (self : PyObject σ) (name : String)
    (fn : World σ → Outcome σ) (args : List PyArg) (w : World σ)
    (h : self.attr name = none) :
    PYBIND11_OVERLOAD_NAME self name fn args w = fn w := by
  simp [PYBIND11_OVERLOAD_NAME, PYBIND11_OVERLOAD_INT, get_overload, h]

theorem dispatchesOptional_of_shim {σ : Type} (name : String)
    (fn : Addr → World σ → Outcome σ) (hfn : ∀ e w, fn e w = Outcome.ret w) :
    DispatchesOptional
      (fun self e w => PYBIND11_OVERLOAD_NAME self name (fn e) [std_ref e] w) name := by
  intro self e w
  constructor
  · intro f hf
    simp only [overload_name_some self name (fn e) [std_ref e] w f hf]
    rfl
  · intro hf
    simp only [overload_name_none self name (fn e) [std_ref e] w hf, hfn]
    rfl

/-- C2: on both backends, when the native loop invokes one of the six optional
callbacks on a PyApplication, an override defined under the matching name
(key_press_event, key_release_event, mouse_press_event, mouse_release_event,
mouse_move_event, mouse_scroll_event) is invoked exactly once with the event
and the call ends as the override ended; with no override the no-op default
runs: memory (events and application state) and the invocation record are
unchanged and nothing is raised. -/
theorem optional_callbacks_dispatch {σ : Type} :
    (DispatchesOptional (σ := σ)
        (fun self e => Glfw.PyApplication.virtualCall self (.keyPressEvent e))
        "key_press_event" ∧
      DispatchesOptional (σ := σ)
        (fun self e => Glfw.PyApplication.virtualCall self (.keyReleaseEvent e))
        "key_release_event" ∧
      DispatchesOptional (σ := σ)
        (fun self e => Glfw.PyApplication.virtualCall self (.mousePressEvent e))
        "mouse_press_event" ∧
      DispatchesOptional (σ := σ)
        (fun self e => Glfw.PyApplication.virtualCall self (.mouseReleaseEvent e))
        "mouse_release_event" ∧
      DispatchesOptional (σ := σ)
        (fun self e => Glfw.PyApplication.virtualCall self (.mouseMoveEvent e))
        "mouse_move_event" ∧
      DispatchesOptional (σ := σ)
        (fun self e => Glfw.PyApplication.virtualCall self (.mouseScrollEvent e))
        "mouse_scroll_event") ∧
    (DispatchesOptional (σ := σ)
        (fun self e => Sdl2.PyApplication.virtualCall self (.keyPressEvent e))
        "key_press_event" ∧
      DispatchesOptional (σ := σ)
        (fun self e => Sdl2.PyApplication.virtualCall self (.keyReleaseEvent e))
        "key_release_event" ∧
      DispatchesOptional (σ := σ)
        (fun self e => Sdl2.PyApplication.virtualCall self (.mousePressEvent e))
        "mouse_press_event" ∧
      DispatchesOptional (σ := σ)
        (fun self e => Sdl2.PyApplication.virtualCall self (.mouseReleaseEvent e))
        "mouse_release_event" ∧
      DispatchesOptional (σ := σ)
        (fun self e => Sdl2.PyApplication.virtualCall self (.mouseMoveEvent e))
        "mouse_move_event" ∧
      DispatchesOptional (σ := σ)
        (fun self e => Sdl2.PyApplication.virtualCall self (.mouseScrollEvent e))
        "mouse_scroll_event") := by
  refine ⟨⟨?_, ?_, ?_, ?_, ?_, ?_⟩, ⟨?_, ?_, ?_, ?_, ?_, ?_⟩⟩
  · exact dispatchesOptional_of_shim _ Glfw.PublicizedApplication.keyPressEvent (fun _ _ => rfl)
  · exact dispatchesOptional_of_shim _ Glfw.PublicizedApplication.keyReleaseEvent (fun _ _ => rfl)
  · exact dispatchesOptional_of_shim _ Glfw.PublicizedApplication.mousePressEvent (fun _ _ => rfl)
  · exact dispatchesOptional_of_shim _ Glfw.PublicizedApplication.mouseReleaseEvent
      (fun _ _ => rfl)
  · exact dispatchesOptional_of_shim _ Glfw.PublicizedApplication.mouseMoveEvent (fun _ _ => rfl)
  · exact dispatchesOptional_of_shim _ Glfw.PublicizedApplication.mouseScrollEvent (fun _ _ => rfl)
  · exact dispatchesOptional_of_shim _ Sdl2.PublicizedApplication.keyPressEvent (fun _ _ => rfl)
  · exact dispatchesOptional_of_shim _ Sdl2.PublicizedApplication.keyReleaseEvent (fun _ _ => rfl)
  · exact dispatchesOptional_of_shim _ Sdl2.PublicizedApplication.mousePressEvent (fun _ _ => rfl)
  · exact dispatchesOptional_of_shim _ Sdl2.PublicizedApplication.mouseReleaseEvent
      (fun _ _ => rfl)
  · exact dispatchesOptional_of_shim _ Sdl2.PublicizedApplication.mouseMoveEvent (fun _ _ => rfl)
  · exact dispatchesOptional_of_shim _ Sdl2.PublicizedApplication.mouseScrollEvent (fun _ _ => rfl)

/-- C2 at a sample input: a scroll override that accepts its event is invoked
once and leaves event 3 accepted; on an object without overrides the same call
leaves event 3 unaccepted and the record empty. -/
theorem optional_callbacks_dispatch_witness :
    ((Sdl2.PyApplication.virtualCall (withOverride "mouse_scroll_event" acceptingOverride)
        (.mouseScrollEvent 3) sampleWorld).world.trace =
        [{ name := "mouse_scroll_event", args := [.reference 3], raised := none }]) ∧
    ((Sdl2.PyApplication.virtualCall noOverrides (.mouseScrollEvent 3) sampleWorld).world.trace
        = []) ∧
    ((Sdl2.PyApplication.virtualCall noOverrides
        (.mouseScrollEvent 3) sampleWorld).world.mem.events 3).accepted = false := by
  have h := (optional_callbacks_dispatch (σ := List Int)).2.2.2.2.2.2
  refine ⟨?_, ?_, ?_⟩
  · have h1 := (h (withOverride "mouse_scroll_event" acceptingOverride) 3 sampleWorld).1
      acceptingOverride (by simp [withOverride])
    simp only at h1
    rw [h1]
    rfl
  · have h2 := (h noOverrides 3 sampleWorld).2 rfl
    simp only at h2
    rw [h2]
    rfl
  · have h2 := (h noOverrides 3 sampleWorld).2 rfl
    simp only at h2
    rw [h2]
    rfl

/-- C3, as stated, fails: on both backends an object whose class defines no
draw_event is constructed without error (the sample native constructor
succeeds), and the first drawEvent invocation is where the missing override is
reported. -/
theorem construction_without_draw_event_succeeds :
    (noOverrides : PyObject (List Int)).attr "draw_event" = none ∧
    Glfw.PyApplication.new sampleNative noOverrides () () = .ok [] ∧
    Sdl2.PyApplication.new sampleNative noOverrides () () = .ok [] ∧
    (Glfw.PyApplication.virtualCall noOverrides .drawEvent sampleWorld).raised =
      some (.runtime_error
        "Tried to call pure virtual function \"PublicizedApplication::draw_event\"") ∧
    (Sdl2.PyApplication.virtualCall noOverrides .drawEvent sampleWorld).raised =
      some (.runtime_error
        "Tried to call pure virtual function \"PublicizedApplication::draw_event\"") := by
  refine ⟨rfl, rfl, rfl, ?_, ?_⟩ <;> decide

/-- C3, amended: on both backends the constructor of a PyApplication does not
consult the overrides of the object: it returns what the native constructor
returns for `Arguments{0, nullptr}` and the two configurations, so it fails
exactly when native construction fails. A missing draw_event override is
reported by drawEvent: every invocation on such an object throws the
pure-virtual error and leaves memory and the invocation record unchanged. -/
theorem missing_draw_event_reported_by_drawEvent {σ κ γ : Type}
    (N : NativeApplication σ κ γ) (self : PyObject σ) (configuration : κ)
    (glConfiguration : γ) :
    Glfw.PyApplication.new N self configuration glConfiguration =
        N.construct { argc := 0, argv := none } configuration glConfiguration ∧
    Sdl2.PyApplication.new N self configuration glConfiguration =
        N.construct { argc := 0, argv := none } configuration glConfiguration ∧
    (self.attr "draw_event" = none → ∀ w : World σ,
      Glfw.PyApplication.virtualCall self .drawEvent w =
        { world := w,
          raised := some (.runtime_error
            "Tried to call pure virtual function \"PublicizedApplication::draw_event\"") } ∧
      Sdl2.PyApplication.virtualCall self .drawEvent w =
        { world := w,
          raised := some (.runtime_error
            "Tried to call pure virtual function \"PublicizedApplication::draw_event\"") }) := by
  refine ⟨rfl, rfl, ?_⟩
  intro h w
  have hs : ("Tried to call pure virtual function \"" ++ "PublicizedApplication" ++ "::" ++
      "draw_event" ++ "\"" : String) =
      "Tried to call pure virtual function \"PublicizedApplication::draw_event\"" := by decide
  constructor
  · simp only [Glfw.PyApplication.virtualCall, Glfw.PyApplication.drawEvent,
      PYBIND11_OVERLOAD_PURE_NAME, PYBIND11_OVERLOAD_INT, get_overload, h, pybind11_fail, hs]
  · simp only [Sdl2.PyApplication.virtualCall, Sdl2.PyApplication.drawEvent,
      PYBIND11_OVERLOAD_PURE_NAME, PYBIND11_OVERLOAD_INT, get_overload, h, pybind11_fail, hs]

/-- C3 amended, at a sample input: an object without overrides. -/
theorem missing_draw_event_reported_by_drawEvent_witness :
    (noOverrides : PyObject (List Int)).attr "draw_event" = none ∧
    Sdl2.PyApplication.virtualCall noOverrides .drawEvent sampleWorld =
      { world := sampleWorld,
        raised := some (.runtime_error
          "Tried to call pure virtual function \"PublicizedApplication::draw_event\"") } :=
  ⟨rfl, ((missing_draw_event_reported_by_drawEvent sampleNative noOverrides () ()).2.2 rfl
    sampleWorld).2⟩

theorem mutationVisible_of_shim {σ : Type} (name : String)
    (fn : Addr → World σ → Outcome σ) :
    MutationVisible
      (fun self e w => PYBIND11_OVERLOAD_NAME self name (fn e) [std_ref e] w) name := by
  intro self e w f hf
  simp only [overload_name_some self name (fn e) [std_ref e] w f hf]
  refine ⟨rfl, rfl, ?_⟩
  intro hm
  exact hm e w.mem

/-- C4: on both backends, for each of the six event callbacks, the override
receives a reference to the native caller's own event (never a copy), the
memory the caller sees when the shim returns is the memory the override left,
and if the override marks the event it receives as accepted then the caller's
event is accepted right after the call. -/
theorem event_mutation_visible {σ : Type} :
    (MutationVisible (σ := σ)
        (fun self e => Glfw.PyApplication.virtualCall self (.keyPressEvent e))
        "key_press_event" ∧
      MutationVisible (σ := σ)
        (fun self e => Glfw.PyApplication.virtualCall self (.keyReleaseEvent e))
        "key_release_event" ∧
      MutationVisible (σ := σ)
        (fun self e => Glfw.PyApplication.virtualCall self (.mousePressEvent e))
        "mouse_press_event" ∧
      MutationVisible (σ := σ)
        (fun self e => Glfw.PyApplication.virtualCall self (.mouseReleaseEvent e))
        "mouse_release_event" ∧
      MutationVisible (σ := σ)
        (fun self e => Glfw.PyApplication.virtualCall self (.mouseMoveEvent e))
        "mouse_move_event" ∧
      MutationVisible (σ := σ)
        (fun self e => Glfw.PyApplication.virtualCall self (.mouseScrollEvent e))
        "mouse_scroll_event") ∧
    (MutationVisible (σ := σ)
        (fun self e => Sdl2.PyApplication.virtualCall self (.keyPressEvent e))
        "key_press_event" ∧
      MutationVisible (σ := σ)
        (fun self e => Sdl2.PyApplication.virtualCall self (.keyReleaseEvent e))
        "key_release_event" ∧
      MutationVisible (σ := σ)
        (fun self e => Sdl2.PyApplication.virtualCall self (.mousePressEvent e))
        "mouse_press_event" ∧
      MutationVisible (σ := σ)
        (fun self e => Sdl2.PyApplication.virtualCall self (.mouseReleaseEvent e))
        "mouse_release_event" ∧
      MutationVisible (σ := σ)
        (fun self e => Sdl2.PyApplication.virtualCall self (.mouseMoveEvent e))
        "mouse_move_event" ∧
      MutationVisible (σ := σ)
        (fun self e => Sdl2.PyApplication.virtualCall self (.mouseScrollEvent e))
        "mouse_scroll_event") := by
  refine ⟨⟨?_, ?_, ?_, ?_, ?_, ?_⟩, ⟨?_, ?_, ?_, ?_, ?_, ?_⟩⟩
  · exact mutationVisible_of_shim _ Glfw.PublicizedApplication.keyPressEvent
  · exact mutationVisible_of_shim _ Glfw.PublicizedApplication.keyReleaseEvent
  · exact mutationVisible_of_shim _ Glfw.PublicizedApplication.mousePressEvent
  · exact mutationVisible_of_shim _ Glfw.PublicizedApplication.mouseReleaseEvent
  · exact mutationVisible_of_shim _ Glfw.PublicizedApplication.mouseMoveEvent
  · exact mutationVisible_of_shim _ Glfw.PublicizedApplication.mouseScrollEvent
  · exact mutationVisible_of_shim _ Sdl2.PublicizedApplication.keyPressEvent
  · exact mutationVisible_of_shim _ Sdl2.PublicizedApplication.keyReleaseEvent
  · exact mutationVisible_of_shim _ Sdl2.PublicizedApplication.mousePressEvent
  · exact mutationVisible_of_shim _ Sdl2.PublicizedApplication.mouseReleaseEvent
  · exact mutationVisible_of_shim _ Sdl2.PublicizedApplication.mouseMoveEvent
  · exact mutationVisible_of_shim _ Sdl2.PublicizedApplication.mouseScrollEvent

theorem acceptingOverride_marksAccepted {σ : Type} :
    MarksAccepted (acceptingOverride : PyCallable σ) := by
  intro a m
  simp [acceptingOverride, Memory.store, InputEvent.setAccepted]

/-- Had the event been marshalled by value, the sample accepting override
would have marked its own copy and the caller's event would stay unaccepted. -/
theorem copy_marshalling_hides_mutation :
    ((callOverload "key_press_event" acceptingOverride [.copy (sampleMemory.events 5)]
        sampleWorld).world.mem.events 5).accepted = false := by
  decide

/-- C4 at a sample input: event 5 is unaccepted before the GLFW keyPressEvent
shim runs the accepting override, and accepted when the shim returns. -/
theorem event_mutation_visible_witness :
    (sampleWorld.mem.events 5).accepted = false ∧
    ((Glfw.PyApplication.virtualCall (withOverride "key_press_event" acceptingOverride)
        (.keyPressEvent 5) sampleWorld).world.mem.events 5).accepted = true :=
  ⟨rfl, ((event_mutation_visible (σ := List Int)).1.1
    (withOverride "key_press_event" acceptingOverride) 5 sampleWorld acceptingOverride
    (by simp [withOverride])).2.2 acceptingOverride_marksAccepted⟩

theorem propagatesFailure_of_shim {σ : Type} (name : String)
    (fn : Addr → World σ → Outcome σ) :
    PropagatesFailure
      (fun self e w => PYBIND11_OVERLOAD_NAME self name (fn e) [std_ref e] w) name := by
  intro self e w f x hf hx
  simp only [overload_name_some self name (fn e) [std_ref e] w f hf]
  simp only [callOverload, std_ref, hx]
  exact ⟨trivial, trivial⟩

theorem overload_name_recorded {σ : Type} (self : PyObject σ) (name : String)
    (fn : World σ → Outcome σ) (hfn : ∀ w, fn w = Outcome.ret w) (args : List PyArg)
    (w : World σ) :
    ∃ d : List Invocation,
      (PYBIND11_OVERLOAD_NAME self name fn args w).world.trace = w.trace ++ d ∧
      ∀ i ∈ d, i.raised = (PYBIND11_OVERLOAD_NAME self name fn args w).raised := by
  cases h : self.attr name with
  | none =>
    refine ⟨[], ?_, ?_⟩
    · simp [overload_name_none self name fn args w h, hfn, Outcome.ret]
    · intro i hi; cases hi
  | some f =>
    refine ⟨[{ name := name, args := args, raised := (f args w.mem).raised }], ?_, ?_⟩
    · simp [overload_name_some self name fn args w f h, callOverload]
    · intro i hi
      simp only [List.mem_singleton] at hi
      subst hi
      simp [overload_name_some self name fn args w f h, callOverload]

theorem overload_pure_name_recorded {σ : Type} (self : PyObject σ) (cname name : String)
    (args : List PyArg) (w : World σ) :
    ∃ d : List Invocation,
      (PYBIND11_OVERLOAD_PURE_NAME self cname name args w).world.trace = w.trace ++ d ∧
      ∀ i ∈ d, i.raised = (PYBIND11_OVERLOAD_PURE_NAME self cname name args w).raised := by
  cases h : self.attr name with
  | none =>
    refine ⟨[], ?_, ?_⟩
    · simp [PYBIND11_OVERLOAD_PURE_NAME, PYBIND11_OVERLOAD_INT, get_overload, h, pybind11_fail]
    · intro i hi; cases hi
  | some f =>
    refine ⟨[{ name := name, args := args, raised := (f args w.mem).raised }], ?_, ?_⟩
    · simp [PYBIND11_OVERLOAD_PURE_NAME, PYBIND11_OVERLOAD_INT, get_overload, h, callOverload]
    · intro i hi
      simp only [List.mem_singleton] at hi
      subst hi
      simp [PYBIND11_OVERLOAD_PURE_NAME, PYBIND11_OVERLOAD_INT, get_overload, h, callOverload]

theorem sdl2_virtualCall_raisesRecorded {σ : Type} (self : PyObject σ) :
    RaisesRecorded (Sdl2.PyApplication.virtualCall self) := by
  intro c w
  cases c with
  | drawEvent => exact overload_pure_name_recorded self _ _ _ w
  | keyPressEvent e => exact overload_name_recorded self _ _ (fun _ => rfl) _ w
  | keyReleaseEvent e => exact overload_name_recorded self _ _ (fun _ => rfl) _ w
  | mousePressEvent e => exact overload_name_recorded self _ _ (fun _ => rfl) _ w
  | mouseReleaseEvent e => exact overload_name_recorded self _ _ (fun _ => rfl) _ w
  | mouseMoveEvent e => exact overload_name_recorded self _ _ (fun _ => rfl) _ w
  | mouseScrollEvent e => exact overload_name_recorded self _ _ (fun _ => rfl) _ w

theorem run_virt_raised {σ ρ : Type} (vc : VirtualCall → World σ → Outcome σ)
    (m : Memory σ) (c : VirtualCall) (k : Memory σ → NativeProg σ ρ) (t : List Invocation)
    (x : Exception) (h : (vc c { mem := m, trace := t }).raised = some x) :
    (NativeProg.virt m c k).run vc t = ((vc c { mem := m, trace := t }).world, .error x) := by
  rw [NativeProg.run]
  generalize vc c { mem := m, trace := t } = o at h
  cases o with
  | mk w r =>
    simp only at h
    subst h
    rfl

theorem run_virt_returned {σ ρ : Type} (vc : VirtualCall → World σ → Outcome σ)
    (m : Memory σ) (c : VirtualCall) (k : Memory σ → NativeProg σ ρ) (t : List Invocation)
    (h : (vc c { mem := m, trace := t }).raised = none) :
    (NativeProg.virt m c k).run vc t =
      (k (vc c { mem := m, trace := t }).world.mem).run vc
        (vc c { mem := m, trace := t }).world.trace := by
  rw [NativeProg.run]
  generalize vc c { mem := m, trace := t } = o at h
  cases o with
  | mk w r =>
    simp only at h
    subst h
    rfl

theorem run_failureEndsCall {σ ρ : Type} (vc : VirtualCall → World σ → Outcome σ)
    (hvc : RaisesRecorded vc) (p : NativeProg σ ρ) :
    ∀ t : List Invocation, FailureEndsCall t (p.run vc t) := by
  induction p with
  | ret r m =>
    intro t
    refine ⟨[], ?_, ?_⟩
    · simp [NativeProg.run]
    · intro i hi; cases hi
  | virt m c k ih =>
    intro t
    obtain ⟨d, hd, hr⟩ := hvc c { mem := m, trace := t }
    cases hx : (vc c { mem := m, trace := t }).raised with
    | some x =>
      rw [run_virt_raised vc m c k t x hx]
      refine ⟨d, hd, ?_⟩
      intro i hi y hy
      have := hr i hi
      rw [hx, hy] at this
      cases this
      rfl
    | none =>
      rw [run_virt_returned vc m c k t hx]
      obtain ⟨new, hnew, hall⟩ := ih (vc c { mem := m, trace := t }).world.mem
        (vc c { mem := m, trace := t }).world.trace
      refine ⟨d ++ new, ?_, ?_⟩
      · rw [hnew, hd]
        simp
      · intro i hi y hy
        rcases List.mem_append.1 hi with h1 | h2
        · have := hr i h1
          rw [hx, hy] at this
          cases this
        · exact hall i h2 y hy

/-- C5: on both backends, for each of the six event callbacks and every error
x, an override that raises x makes the shim end with that same x after that
one invocation (not caught, no fall-through to the default that would return
normally); and every SDL2 main_loop_iteration() call during which an override
invocation raised x ends with x rather than with a continue/stop status. -/
theorem callback_failure_propagates {σ κ γ : Type} :
    (PropagatesFailure (σ := σ)
        (fun self e => Glfw.PyApplication.virtualCall self (.keyPressEvent e))
        "key_press_event" ∧
      PropagatesFailure (σ := σ)
        (fun self e => Glfw.PyApplication.virtualCall self (.keyReleaseEvent e))
        "key_release_event" ∧
      PropagatesFailure (σ := σ)
        (fun self e => Glfw.PyApplication.virtualCall self (.mousePressEvent e))
        "mouse_press_event" ∧
      PropagatesFailure (σ := σ)
        (fun self e => Glfw.PyApplication.virtualCall self (.mouseReleaseEvent e))
        "mouse_release_event" ∧
      PropagatesFailure (σ := σ)
        (fun self e => Glfw.PyApplication.virtualCall self (.mouseMoveEvent e))
        "mouse_move_event" ∧
      PropagatesFailure (σ := σ)
        (fun self e => Glfw.PyApplication.virtualCall self (.mouseScrollEvent e))
        "mouse_scroll_event") ∧
    (PropagatesFailure (σ := σ)
        (fun self e => Sdl2.PyApplication.virtualCall self (.keyPressEvent e))
        "key_press_event" ∧
      PropagatesFailure (σ := σ)
        (fun self e => Sdl2.PyApplication.virtualCall self (.keyReleaseEvent e))
        "key_release_event" ∧
      PropagatesFailure (σ := σ)
        (fun self e => Sdl2.PyApplication.virtualCall self (.mousePressEvent e))
        "mouse_press_event" ∧
      PropagatesFailure (σ := σ)
        (fun self e => Sdl2.PyApplication.virtualCall self (.mouseReleaseEvent e))
        "mouse_release_event" ∧
      PropagatesFailure (σ := σ)
        (fun self e => Sdl2.PyApplication.virtualCall self (.mouseMoveEvent e))
        "mouse_move_event" ∧
      PropagatesFailure (σ := σ)
        (fun self e => Sdl2.PyApplication.virtualCall self (.mouseScrollEvent e))
        "mouse_scroll_event") ∧
    (∀ (N : NativeApplication σ κ γ) (self : PyObject σ) (w : World σ),
      ∃ r, callMethod (Sdl2.sdl2application_methods N) "main_loop_iteration" (self, w) = some r ∧
        FailureEndsCall w.trace r) := by
  refine ⟨⟨?_, ?_, ?_, ?_, ?_, ?_⟩, ⟨?_, ?_, ?_, ?_, ?_, ?_⟩, ?_⟩
  · exact propagatesFailure_of_shim _ Glfw.PublicizedApplication.keyPressEvent
  · exact propagatesFailure_of_shim _ Glfw.PublicizedApplication.keyReleaseEvent
  · exact propagatesFailure_of_shim _ Glfw.PublicizedApplication.mousePressEvent
  · exact propagatesFailure_of_shim _ Glfw.PublicizedApplication.mouseReleaseEvent
  · exact propagatesFailure_of_shim _ Glfw.PublicizedApplication.mouseMoveEvent
  · exact propagatesFailure_of_shim _ Glfw.PublicizedApplication.mouseScrollEvent
  · exact propagatesFailure_of_shim _ Sdl2.PublicizedApplication.keyPressEvent
  · exact propagatesFailure_of_shim _ Sdl2.PublicizedApplication.keyReleaseEvent
  · exact propagatesFailure_of_shim _ Sdl2.PublicizedApplication.mousePressEvent
  · exact propagatesFailure_of_shim _ Sdl2.PublicizedApplication.mouseReleaseEvent
  · exact propagatesFailure_of_shim _ Sdl2.PublicizedApplication.mouseMoveEvent
  · exact propagatesFailure_of_shim _ Sdl2.PublicizedApplication.mouseScrollEvent
  · intro N self w
    refine ⟨Sdl2.PyApplication.mainLoopIteration N self w, ?_, ?_⟩
    · simp [callMethod, Sdl2.sdl2application_methods]
    · exact run_failureEndsCall _ (sdl2_virtualCall_raisesRecorded self) _ _

/-- C5 at the scenario of the spec: the sample native loop delivers a scroll
event, the mouse_scroll_event override raises "boom", and the
main_loop_iteration() call ends with that error. -/
theorem callback_failure_propagates_witness :
    (raisingOverride "boom" [.reference 0] sampleWorld.mem : PyResult (List Int)).raised =
        some (.error_already_set "boom") ∧
    (Sdl2.PyApplication.virtualCall (withOverride "mouse_scroll_event" (raisingOverride "boom"))
        (.mouseScrollEvent 0) sampleWorld).raised = some (.error_already_set "boom") ∧
    (callMethod (Sdl2.sdl2application_methods sampleNative) "main_loop_iteration"
        (withOverride "mouse_scroll_event" (raisingOverride "boom"), sampleWorld)).map
      (fun r => (r.1.trace, r.2)) =
      some ([{ name := "mouse_scroll_event", args := [.reference 0],
               raised := some (.error_already_set "boom") }],
            .error (.error_already_set "boom")) := by
  refine ⟨rfl, ?_, ?_⟩
  · exact ((callback_failure_propagates (σ := List Int) (κ := Unit) (γ := Unit)).2.1.2.2.2.2.2
      (withOverride "mouse_scroll_event" (raisingOverride "boom")) 0 sampleWorld
      (raisingOverride "boom") (.error_already_set "boom") (by simp [withOverride]) rfl).1
  · rfl

/-! ### Configuration flags -/

theorem single_or_contains (i j k : Nat) :
    ((Flags.single i).or (Flags.single j)).contains (Flags.single k) ↔ (k = i ∨ k = j) := by
  have key : ((2 ^ i ||| 2 ^ j) &&& 2 ^ k = 2 ^ k) ↔ (k = i ∨ k = j) := by
    constructor
    · intro h
      have h1 : ((2 ^ i ||| 2 ^ j) &&& 2 ^ k).testBit k = (2 ^ k).testBit k := by rw [h]
      simp only [Nat.testBit_and, Nat.testBit_or, Nat.testBit_two_pow_self, Bool.and_true] at h1
      simp only [Nat.testBit_two_pow, Bool.or_eq_true, decide_eq_true_eq] at h1
      rcases h1 with h1 | h1
      · exact Or.inl h1.symm
      · exact Or.inr h1.symm
    · intro h
      apply Nat.eq_of_testBit_eq
      intro n
      simp only [Nat.testBit_and, Nat.testBit_or, Nat.testBit_two_pow]
      rcases h with h | h <;> subst h <;> by_cases hn : k = n <;> simp [hn]
  simp only [Flags.contains, Flags.and, Flags.or, Flags.single, Flags.mk.injEq]
  exact key

/-- C6: for every windowless Configuration c (whatever flags it held) and every
flag set F, assigning F to the flags property and then reading flags returns
exactly F; the assignment is the native setFlags (the other fields are kept,
the previous flags are dropped). In particular after assigning the OR of two
single flags the set read back holds a single flag iff it is one of those two. -/
theorem configuration_flags_roundtrip {ω : Type} (c : WindowlessConfiguration ω) (F : Flags) :
    setattr configuration_properties "flags" c F = some (c.setFlags F) ∧
    (c.setFlags F).others = c.others ∧
    (setattr configuration_properties "flags" c F).bind
        (getattr configuration_properties "flags") = some F ∧
    (∀ i j : Nat, ∃ G : Flags,
      (setattr configuration_properties "flags" c ((Flags.single i).or (Flags.single j))).bind
          (getattr configuration_properties "flags") = some G ∧
      ∀ k : Nat, G.contains (Flags.single k) ↔ (k = i ∨ k = j)) := by
  refine ⟨?_, rfl, ?_, ?_⟩
  · simp [setattr, configuration_properties]
  · simp [setattr, getattr, configuration_properties, WindowlessConfiguration.setFlags,
      WindowlessConfiguration.flags]
  · intro i j
    refine ⟨(Flags.single i).or (Flags.single j), ?_, fun k => single_or_contains i j k⟩
    simp [setattr, getattr, configuration_properties, WindowlessConfiguration.setFlags,
      WindowlessConfiguration.flags]

/-! ### Contents of the tables -/

/-- C7: in a GLFW build with GLFW_MAXIMIZED and GLFW_NO_API defined the
window-flag table is exactly FULLSCREEN, RESIZABLE, HIDDEN, MAXIMIZED,
MINIMIZED, FLOATING, AUTO_ICONIFY, FOCUSED, CONTEXTLESS in that order, each
paired with the native flag of the same meaning; and in every build MAXIMIZED
(name and flag) is in the table iff GLFW_MAXIMIZED is defined, CONTEXTLESS iff
GLFW_NO_API is defined, the lookup of the name of a flag that is not compiled
in failing at the table. -/
theorem glfw_window_flag_table (b : GlfwBuild) :
    (b.GLFW_MAXIMIZED = true → b.GLFW_NO_API = true →
      Glfw.windowFlagMap b =
        [(.Fullscreen, "FULLSCREEN"), (.Resizable, "RESIZABLE"), (.Hidden, "HIDDEN"),
         (.Maximized, "MAXIMIZED"), (.Minimized, "MINIMIZED"), (.Floating, "FLOATING"),
         (.AutoIconify, "AUTO_ICONIFY"), (.Focused, "FOCUSED"),
         (.Contextless, "CONTEXTLESS")]) ∧
    ("MAXIMIZED" ∈ tableNames (Glfw.windowFlagMap b) ↔ b.GLFW_MAXIMIZED = true) ∧
    (GlfwWindowFlag.Maximized ∈ tableFlags (Glfw.windowFlagMap b) ↔ b.GLFW_MAXIMIZED = true) ∧
    ("CONTEXTLESS" ∈ tableNames (Glfw.windowFlagMap b) ↔ b.GLFW_NO_API = true) ∧
    (GlfwWindowFlag.Contextless ∈ tableFlags (Glfw.windowFlagMap b) ↔ b.GLFW_NO_API = true) ∧
    name_to_flag (Glfw.windowFlagMap b) "MAXIMIZED" =
      (if b.GLFW_MAXIMIZED then some .Maximized else none) ∧
    name_to_flag (Glfw.windowFlagMap b) "CONTEXTLESS" =
      (if b.GLFW_NO_API then some .Contextless else none) := by
  rcases b with ⟨a, c, d, e⟩
  cases a <;> cases c <;> cases d <;> cases e <;> decide

/-- C7 at the sample build with both symbols defined. -/
theorem glfw_window_flag_table_witness :
    sampleGlfwBuild.GLFW_MAXIMIZED = true ∧ sampleGlfwBuild.GLFW_NO_API = true ∧
    Glfw.windowFlagMap sampleGlfwBuild =
      [(.Fullscreen, "FULLSCREEN"), (.Resizable, "RESIZABLE"), (.Hidden, "HIDDEN"),
       (.Maximized, "MAXIMIZED"), (.Minimized, "MINIMIZED"), (.Floating, "FLOATING"),
       (.AutoIconify, "AUTO_ICONIFY"), (.Focused, "FOCUSED"),
       (.Contextless, "CONTEXTLESS")] :=
  ⟨rfl, rfl, (glfw_window_flag_table sampleGlfwBuild).1 rfl rfl⟩

theorem castInt_of_val (i : Int) (v : MagnumInt) (h : v.val = i) : castInt i = some v := by
  subst h
  have hv := v.property
  simp [castInt, hv.1, hv.2]

theorem castInt_out_of_range (i : Int) (h : i < -2147483648 ∨ 2147483648 ≤ i) :
    castInt i = none := by
  unfold castInt
  rw [dif_neg]
  omega

/-- C9, as stated, fails twice. For the GLFW backend: `glfw.cpp` registers no
swap_interval property (neither read nor write) and no main_loop_iteration
method on its Application class. For the SDL2 backend: assigning the integer
2^31, which the 32-bit `Int` parameter of the setter cannot hold, is refused
and the native setSwapInterval is not called at all (the log of the sample
application would otherwise hold an entry). -/
theorem swap_interval_absent_on_glfw_and_range_checked :
    getattr (Glfw.glfwApplication_properties sampleNative) "swap_interval" [] = none ∧
    assignInt (Glfw.glfwApplication_properties sampleNative) "swap_interval" [] 1 =
        .attributeError ∧
    (callMethod (Glfw.glfwApplication_methods sampleNative) "main_loop_iteration"
      (noOverrides, sampleWorld)).isNone = true ∧
    assignInt (Sdl2.sdl2application_properties idleNative) "swap_interval" [] 2147483648 =
        .typeError ∧
    assignInt (Sdl2.sdl2application_properties idleNative) "swap_interval" [] 2147483647 =
        .assigned [2147483647] := by
  refine ⟨rfl, rfl, rfl, ?_, ?_⟩ <;> decide

/-- C9, amended: on the SDL2 Application class, as `sdl2.cpp` registers it,
swap_interval is a read/write property and main_loop_iteration() an instance
method: reading swap_interval returns the native swapInterval() of the
application; assigning an integer i that the 32-bit `Int` holds is the native
setSwapInterval on the application with exactly i, assigning an integer
outside that range is refused with a type error without calling it; and
main_loop_iteration() is the native mainLoopIteration() run on the object,
whose boolean it returns. `glfw.cpp` registers no property and no method on
the GLFW Application class. -/
theorem sdl2_swap_interval_and_main_loop_iteration {σ κ γ : Type}
    (N : NativeApplication σ κ γ) (app : σ) (i : Int) (self : PyObject σ) (w : World σ) :
    getattr (Sdl2.sdl2application_properties N) "swap_interval" app =
        some (N.swapInterval app) ∧
    (∀ v : MagnumInt, v.val = i →
      assignInt (Sdl2.sdl2application_properties N) "swap_interval" app i =
        .assigned (N.setSwapInterval app v)) ∧
    ((-2147483648 ≤ i ∧ i < 2147483648) →
      ∃ v : MagnumInt, v.val = i ∧
        assignInt (Sdl2.sdl2application_properties N) "swap_interval" app i =
          .assigned (N.setSwapInterval app v)) ∧
    ((i < -2147483648 ∨ 2147483648 ≤ i) →
      assignInt (Sdl2.sdl2application_properties N) "swap_interval" app i = .typeError) ∧
    callMethod (Sdl2.sdl2application_methods N) "main_loop_iteration" (self, w) =
        some ((N.mainLoopIteration w.mem).run (Sdl2.PyApplication.virtualCall self) w.trace) ∧
    (∀ (b : Bool) (m : Memory σ), N.mainLoopIteration w.mem = .ret b m →
      callMethod (Sdl2.sdl2application_methods N) "main_loop_iteration" (self, w) =
        some ({ mem := m, trace := w.trace }, .ok b)) ∧
    (∀ name : String,
      getattr (Glfw.glfwApplication_properties N) name app = none ∧
      assignInt (Glfw.glfwApplication_properties N) name app i = .attributeError ∧
      callMethod (Glfw.glfwApplication_methods N) name (self, w) = none) := by
  refine ⟨?_, ?_, ?_, ?_, ?_, ?_, ?_⟩
  · simp [getattr, Sdl2.sdl2application_properties]
  · intro v hv
    simp [assignInt, Sdl2.sdl2application_properties, castInt_of_val i v hv]
  · intro hr
    refine ⟨⟨i, hr⟩, rfl, ?_⟩
    simp [assignInt, Sdl2.sdl2application_properties, castInt_of_val i ⟨i, hr⟩ rfl]
  · intro hr
    simp [assignInt, Sdl2.sdl2application_properties, castInt_out_of_range i hr]
  · simp [callMethod, Sdl2.sdl2application_methods, Sdl2.PyApplication.mainLoopIteration]
  · intro b m h
    simp [callMethod, Sdl2.sdl2application_methods, Sdl2.PyApplication.mainLoopIteration, h,
      NativeProg.run]
  · intro name
    exact ⟨rfl, rfl, rfl⟩

/-- C9 amended, at a sample input: on the idle sample application, whose
state logs the intervals it was asked to set, assigning 5 logs exactly one 5,
reading afterwards returns 5, assigning 2^31 is refused, and
main_loop_iteration() returns the true of the native iteration. -/
theorem sdl2_swap_interval_and_main_loop_iteration_witness :
    ((-2147483648 : Int) ≤ 5 ∧ (5 : Int) < 2147483648) ∧
    assignInt (Sdl2.sdl2application_properties idleNative) "swap_interval" [] 5 =
        .assigned [5] ∧
    (getattr (Sdl2.sdl2application_properties idleNative) "swap_interval" [5]).map
        Subtype.val = some 5 ∧
    ((2147483648 : Int) < -2147483648 ∨ (2147483648 : Int) ≤ 2147483648) ∧
    assignInt (Sdl2.sdl2application_properties idleNative) "swap_interval" [] 2147483648 =
        .typeError ∧
    idleNative.mainLoopIteration sampleWorld.mem = .ret true sampleWorld.mem ∧
    (callMethod (Sdl2.sdl2application_methods idleNative) "main_loop_iteration"
        (noOverrides, sampleWorld)).map (fun r => r.2) = some (.ok true) := by
  have h := sdl2_swap_interval_and_main_loop_iteration idleNative [] 5 noOverrides sampleWorld
  have h2 := sdl2_swap_interval_and_main_loop_iteration idleNative [5] 5 noOverrides sampleWorld
  have h3 := sdl2_swap_interval_and_main_loop_iteration idleNative [] 2147483648 noOverrides
    sampleWorld
  refine ⟨by decide, ?_, ?_, by decide, h3.2.2.2.1 (by decide), rfl, ?_⟩
  · exact h.2.1 (MagnumInt.ofInt 5) (by decide)
  · rw [h2.1]
    decide
  · rw [h.2.2.2.2.2.1 true sampleWorld.mem rfl]
    rfl

/-! ### Stepping the loop against `exec` -/

theorem overload_name_framed {σ : Type} (self : PyObject σ) (name : String)
    (fn : World σ → Outcome σ) (hfn : ∀ w, fn w = Outcome.ret w) (args : List PyArg)
    (m : Memory σ) (t : List Invocation) :
    PYBIND11_OVERLOAD_NAME self name fn args { mem := m, trace := t } =
      { world :=
          { mem := (PYBIND11_OVERLOAD_NAME self name fn args { mem := m, trace := [] }).world.mem,
            trace := t ++
              (PYBIND11_OVERLOAD_NAME self name fn args { mem := m, trace := [] }).world.trace },
        raised := (PYBIND11_OVERLOAD_NAME self name fn args { mem := m, trace := [] }).raised } := by
  cases h : self.attr name with
  | none => simp [overload_name_none self name fn args _ h, hfn, Outcome.ret]
  | some f => simp [overload_name_some self name fn args _ f h, callOverload]

theorem overload_pure_name_framed {σ : Type} (self : PyObject σ) (cname name : String)
    (args : List PyArg) (m : Memory σ) (t : List Invocation) :
    PYBIND11_OVERLOAD_PURE_NAME self cname name args { mem := m, trace := t } =
      { world :=
          { mem := (PYBIND11_OVERLOAD_PURE_NAME self cname name args
              { mem := m, trace := [] }).world.mem,
            trace := t ++ (PYBIND11_OVERLOAD_PURE_NAME self cname name args
              { mem := m, trace := [] }).world.trace },
        raised := (PYBIND11_OVERLOAD_PURE_NAME self cname name args
          { mem := m, trace := [] }).raised } := by
  cases h : self.attr name with
  | none =>
    simp [PYBIND11_OVERLOAD_PURE_NAME, PYBIND11_OVERLOAD_INT, get_overload, h, pybind11_fail]
  | some f =>
    simp [PYBIND11_OVERLOAD_PURE_NAME, PYBIND11_OVERLOAD_INT, get_overload, h, callOverload]

theorem sdl2_virtualCall_traceFramed {σ : Type} (self : PyObject σ) :
    TraceFramed (Sdl2.PyApplication.virtualCall self) := by
  intro c m t
  cases c with
  | drawEvent => exact overload_pure_name_framed self _ _ _ m t
  | keyPressEvent e => exact overload_name_framed self _ _ (fun _ => rfl) _ m t
  | keyReleaseEvent e => exact overload_name_framed self _ _ (fun _ => rfl) _ m t
  | mousePressEvent e => exact overload_name_framed self _ _ (fun _ => rfl) _ m t
  | mouseReleaseEvent e => exact overload_name_framed self _ _ (fun _ => rfl) _ m t
  | mouseMoveEvent e => exact overload_name_framed self _ _ (fun _ => rfl) _ m t
  | mouseScrollEvent e => exact overload_name_framed self _ _ (fun _ => rfl) _ m t

theorem run_framed {σ ρ : Type} (vc : VirtualCall → World σ → Outcome σ)
    (hvc : TraceFramed vc) (p : NativeProg σ ρ) :
    ∀ t : List Invocation, p.run vc t =
      ({ mem := (p.run vc []).1.mem, trace := t ++ (p.run vc []).1.trace }, (p.run vc []).2) := by
  induction p with
  | ret r m => intro t; simp [NativeProg.run]
  | virt m c k ih =>
    intro t
    have hf := hvc c m t
    cases hx : (vc c { mem := m, trace := [] }).raised with
    | some x =>
      have hxt : (vc c { mem := m, trace := t }).raised = some x := by rw [hf]; exact hx
      rw [run_virt_raised vc m c k t x hxt, run_virt_raised vc m c k [] x hx, hf]
    | none =>
      have hxt : (vc c { mem := m, trace := t }).raised = none := by rw [hf]; exact hx
      rw [run_virt_returned vc m c k t hxt, run_virt_returned vc m c k [] hx, hf]
      simp only
      rw [ih _ (t ++ (vc c { mem := m, trace := [] }).world.trace),
        ih _ (vc c { mem := m, trace := [] }).world.trace]
      simp [List.append_assoc]

/-- C10: for every native loop, every object and every bound on the number of
iterations, calling main_loop_iteration() until it returns false (or raises)
ends exactly when one blocking exec() from the same initial state ends, and
then the override invocations seen over all the calls, in order, are the ones
exec made after those on record, the memory left is the same and so is the
error raised, if any. -/
theorem exec_matches_mainLoopIterations {σ κ γ : Type} (N : NativeApplication σ κ γ)
    (self : PyObject σ) (fuel : Nat) (w : World σ) :
    (Sdl2.exec N self fuel w).map (fun r => (r.1.trace, r.1.mem, errorOf r.2)) =
      (Sdl2.mainLoopIterations N self fuel w.mem).map
        (fun s => (w.trace ++ s.perCall.flatten, s.mem, s.raised)) := by
  induction fuel generalizing w with
  | zero => rfl
  | succ n ih =>
    have hc : callMethod (Sdl2.sdl2application_methods N) "main_loop_iteration"
        (self, ({ mem := w.mem, trace := [] } : World σ)) =
        some ((N.mainLoopIteration w.mem).run (Sdl2.PyApplication.virtualCall self) []) := by
      simp [callMethod, Sdl2.sdl2application_methods, Sdl2.PyApplication.mainLoopIteration]
    have hf := run_framed (Sdl2.PyApplication.virtualCall self)
      (sdl2_virtualCall_traceFramed self) (N.mainLoopIteration w.mem) w.trace
    rw [Sdl2.exec, Sdl2.mainLoopIterations, hc, hf]
    generalize (N.mainLoopIteration w.mem).run (Sdl2.PyApplication.virtualCall self) [] = r
    rcases r with ⟨w1, res⟩
    cases res with
    | error x => simp [errorOf]
    | ok b =>
      cases b with
      | false => simp [errorOf]
      | true =>
        simp only
        rw [ih]
        simp only [Option.map_map]
        congr 1
        funext s
        simp [List.append_assoc]

/-- C10 at a sample input: two main_loop_iteration() calls on the sample loop
see a key press and a draw, then a draw; one exec() sees the same three
invocations in the same order. -/
theorem exec_matches_mainLoopIterations_witness :
    (Sdl2.mainLoopIterations sampleLoop sampleObject 2 sampleLoopMemory).map
        (fun s => s.perCall) =
      some [[{ name := "key_press_event", args := [.reference 1], raised := none },
             { name := "draw_event", args := [], raised := none }],
            [{ name := "draw_event", args := [], raised := none }]] ∧
    (Sdl2.exec sampleLoop sampleObject 2 { mem := sampleLoopMemory, trace := [] }).map
        (fun r => r.1.trace) =
      some [{ name := "key_press_event", args := [.reference 1], raised := none },
            { name := "draw_event", args := [], raised := none },
            { name := "draw_event", args := [], raised := none }] := by
  have h := congrArg (Option.map (fun t => t.1))
    (exec_matches_mainLoopIterations sampleLoop sampleObject 2
      { mem := sampleLoopMemory, trace := [] })
  simp only [Option.map_map] at h
  refine ⟨by decide, ?_⟩
  refine Eq.trans h ?_
  decide

/-- C6 at a sample input: a configuration holding flag bit 3 is assigned the
OR of the single flags 0 and 1; reading returns exactly that set. -/
theorem configuration_flags_roundtrip_witness :
    (setattr configuration_properties "flags"
        ({ flags_ := Flags.single 3, others := () } : WindowlessConfiguration Unit)
        ((Flags.single 0).or (Flags.single 1))).bind
      (getattr configuration_properties "flags") = some { bits := 3 } :=
  (configuration_flags_roundtrip
    ({ flags_ := Flags.single 3, others := () } : WindowlessConfiguration Unit)
    ((Flags.single 0).or (Flags.single 1))).2.2.1

/-- C1 at the sample GLFW build: AUTO_ICONIFY names AutoIconify and back. -/
theorem flag_tables_bijective_witness :
    GlfwWindowFlag.AutoIconify ∈ tableFlags (Glfw.windowFlagMap sampleGlfwBuild) ∧
    (flag_to_name (Glfw.windowFlagMap sampleGlfwBuild) .AutoIconify).bind
      (name_to_flag (Glfw.windowFlagMap sampleGlfwBuild)) = some .AutoIconify :=
  ⟨by decide, (flag_tables_bijective.1 sampleGlfwBuild).1.2.2.1 .AutoIconify (by decide)⟩

/-! ### SDL version test -/

theorem versionAtLeast_2_0_6 (M m p : Nat) :
    versionAtLeast (M, m, p) (2, 0, 6) = true ↔ (M > 2 ∨ (M = 2 ∧ (m > 0 ∨ (m = 0 ∧ p ≥ 6)))) := by
  simp [versionAtLeast]

theorem version_test_iff (M m p : Nat) (hM : M ≥ 2) :
    M * 1000 + m * 100 + p ≥ 2006 ↔ versionAtLeast (M, m, p) (2, 0, 6) = true := by
  rw [versionAtLeast_2_0_6]
  omega

theorem vulkan_mem_iff_guard (b : Sdl2Build) :
    ((Sdl2WindowFlag.Vulkan, "VULKAN") ∈ Sdl2.windowFlagMap b ↔ sdl2VulkanGuard b = true) ∧
    (Sdl2WindowFlag.Vulkan ∈ tableFlags (Sdl2.windowFlagMap b) ↔ sdl2VulkanGuard b = true) ∧
    ("VULKAN" ∈ tableNames (Sdl2.windowFlagMap b) ↔ sdl2VulkanGuard b = true) := by
  unfold Sdl2.windowFlagMap
  generalize sdl2VulkanGuard b = v
  generalize b.CORRADE_TARGET_EMSCRIPTEN = a
  cases a <;> cases v <;> decide

/-- Below major version 2 the arithmetic test and the version comparison can
disagree: for 1.10.6 the test holds although the version is older than 2.0.6. -/
theorem version_test_disagrees_below_major_two :
    decide (sdlVersionNumber
      { CORRADE_TARGET_EMSCRIPTEN := false, MAGNUM_TARGET_GLES := false,
        MAGNUM_BUILD_DEPRECATED := false,
        SDL_MAJOR_VERSION := 1, SDL_MINOR_VERSION := 10, SDL_PATCHLEVEL := 6 } ≥ 2006) = true ∧
    versionAtLeast (1, 10, 6) (2, 0, 6) = false := by
  decide

/-- Where the plain version number stays below 2^63 nothing wraps: the
`intmax_t` value the preprocessor compares is that number. -/
theorem sdlVersionNumber_eq_of_lt (b : Sdl2Build) (h : sdlVersionNat b < 2 ^ 63) :
    sdlVersionNumber b = (sdlVersionNat b : Int) := by
  unfold sdlVersionNat at h
  unfold sdlVersionNumber sdlVersionNat intmaxWrap
  push_cast
  omega

/-- C12, as stated, fails: the non-Emscripten sample build with SDL version
(2^63 - 1).0.0 has major at least 2 and is at least 2.0.6, but the product
major*1000 wraps around in the `intmax_t` arithmetic of the preprocessor: the
number compared with 2006 is -1000, the test fails and the table has no VULKAN
entry. -/
theorem sdl2_vulkan_gating_fails_on_overflow :
    sampleHugeSdlBuild.CORRADE_TARGET_EMSCRIPTEN = false ∧
    sampleHugeSdlBuild.SDL_MAJOR_VERSION ≥ 2 ∧
    versionAtLeast (sdlVersion sampleHugeSdlBuild) (2, 0, 6) = true ∧
    sdlVersionNumber sampleHugeSdlBuild = -1000 ∧
    ¬ (sdlVersionNumber sampleHugeSdlBuild ≥ 2006) ∧
    (Sdl2WindowFlag.Vulkan, "VULKAN") ∉ Sdl2.windowFlagMap sampleHugeSdlBuild ∧
    "VULKAN" ∉ tableNames (Sdl2.windowFlagMap sampleHugeSdlBuild) := by
  decide

/-- C12, amended: on a non-Emscripten build, for every SDL version (major,
minor, patch) with major at least 2 whose number major*1000 + minor*100 +
patch stays below 2^63 (so that the `intmax_t` arithmetic of the preprocessor
does not wrap), the test major*1000 + minor*100 + patch >= 2006 holds iff the
version is at least 2.0.6 in the lexicographic order, and the VULKAN entry
(pair, flag and name) is in the SDL2 window-flag table iff it does; on an
Emscripten build the table is exactly RESIZABLE, CONTEXTLESS, OPENGL, so
VULKAN, FULLSCREEN, BORDERLESS, HIDDEN, MAXIMIZED, MINIMIZED and MOUSE_LOCKED
are absent. -/
theorem sdl2_vulkan_gating (b : Sdl2Build) :
    (b.CORRADE_TARGET_EMSCRIPTEN = false → b.SDL_MAJOR_VERSION ≥ 2 →
      b.SDL_MAJOR_VERSION * 1000 + b.SDL_MINOR_VERSION * 100 + b.SDL_PATCHLEVEL < 2 ^ 63 →
      (sdlVersionNumber b ≥ 2006 ↔ versionAtLeast (sdlVersion b) (2, 0, 6) = true) ∧
      ((Sdl2WindowFlag.Vulkan, "VULKAN") ∈ Sdl2.windowFlagMap b ↔
        versionAtLeast (sdlVersion b) (2, 0, 6) = true) ∧
      (Sdl2WindowFlag.Vulkan ∈ tableFlags (Sdl2.windowFlagMap b) ↔
        versionAtLeast (sdlVersion b) (2, 0, 6) = true) ∧
      ("VULKAN" ∈ tableNames (Sdl2.windowFlagMap b) ↔
        versionAtLeast (sdlVersion b) (2, 0, 6) = true)) ∧
    (b.CORRADE_TARGET_EMSCRIPTEN = true →
      Sdl2.windowFlagMap b =
        [(.Resizable, "RESIZABLE"), (.Contextless, "CONTEXTLESS"), (.OpenGL, "OPENGL")] ∧
      (∀ n ∈ ["VULKAN", "FULLSCREEN", "BORDERLESS", "HIDDEN", "MAXIMIZED", "MINIMIZED",
          "MOUSE_LOCKED"], n ∉ tableNames (Sdl2.windowFlagMap b))) := by
  constructor
  · intro he hM hlt
    have hnat : b.SDL_MAJOR_VERSION * 1000 + b.SDL_MINOR_VERSION * 100 + b.SDL_PATCHLEVEL
          ≥ 2006 ↔ versionAtLeast (sdlVersion b) (2, 0, 6) = true :=
      version_test_iff b.SDL_MAJOR_VERSION b.SDL_MINOR_VERSION b.SDL_PATCHLEVEL hM
    have heq : sdlVersionNumber b = (sdlVersionNat b : Int) :=
      sdlVersionNumber_eq_of_lt b hlt
    have ht : sdlVersionNumber b ≥ 2006 ↔ versionAtLeast (sdlVersion b) (2, 0, 6) = true := by
      rw [heq, ← hnat]
      unfold sdlVersionNat
      omega
    have hg : sdl2VulkanGuard b = true ↔ sdlVersionNumber b ≥ 2006 := by
      simp [sdl2VulkanGuard, he]
    have hv := vulkan_mem_iff_guard b
    exact ⟨ht, hv.1.trans (hg.trans ht), hv.2.1.trans (hg.trans ht),
      hv.2.2.trans (hg.trans ht)⟩
  · intro he
    have hg : sdl2VulkanGuard b = false := by simp [sdl2VulkanGuard, he]
    unfold Sdl2.windowFlagMap
    rw [hg, he]
    decide

/-- C12 amended, at sample builds: SDL 2.0.10 has the VULKAN entry, SDL 2.0.5
has not, and the Emscripten build keeps three entries. -/
theorem sdl2_vulkan_gating_witness :
    (sampleDeprecatedBuild.CORRADE_TARGET_EMSCRIPTEN = false ∧
      sampleDeprecatedBuild.SDL_MAJOR_VERSION ≥ 2 ∧
      sampleDeprecatedBuild.SDL_MAJOR_VERSION * 1000 +
        sampleDeprecatedBuild.SDL_MINOR_VERSION * 100 +
        sampleDeprecatedBuild.SDL_PATCHLEVEL < 2 ^ 63 ∧
      (Sdl2WindowFlag.Vulkan, "VULKAN") ∈ Sdl2.windowFlagMap sampleDeprecatedBuild) ∧
    (sampleOldSdlBuild.CORRADE_TARGET_EMSCRIPTEN = false ∧
      sampleOldSdlBuild.SDL_MAJOR_VERSION ≥ 2 ∧
      sampleOldSdlBuild.SDL_MAJOR_VERSION * 1000 + sampleOldSdlBuild.SDL_MINOR_VERSION * 100 +
        sampleOldSdlBuild.SDL_PATCHLEVEL < 2 ^ 63 ∧
      (Sdl2WindowFlag.Vulkan, "VULKAN") ∉ Sdl2.windowFlagMap sampleOldSdlBuild) ∧
    (sampleEmscriptenBuild.CORRADE_TARGET_EMSCRIPTEN = true ∧
      Sdl2.windowFlagMap sampleEmscriptenBuild =
        [(.Resizable, "RESIZABLE"), (.Contextless, "CONTEXTLESS"), (.OpenGL, "OPENGL")]) :=
  ⟨⟨rfl, by decide, by decide,
      (((sdl2_vulkan_gating sampleDeprecatedBuild).1 rfl (by decide) (by decide)).2.1).2
        (by decide)⟩,
    ⟨rfl, by decide, by decide, fun h =>
      absurd ((((sdl2_vulkan_gating sampleOldSdlBuild).1 rfl (by decide) (by decide)).2.1).1 h)
        (by decide)⟩,
    ⟨rfl, ((sdl2_vulkan_gating sampleEmscriptenBuild).2 rfl).1⟩⟩

/-! ### The two shims side by side -/

theorem glfw_virtualCall_looksUp {σ : Type} (c : VirtualCall) :
    LooksUp (σ := σ) (fun self => Glfw.PyApplication.virtualCall self c)
      (snake_case c.methodName) c.args := by
  intro self w f hf
  cases c with
  | drawEvent =>
    have hn : snake_case "drawEvent" = "draw_event" := by decide
    simp only [VirtualCall.methodName, hn] at hf
    simp only [VirtualCall.methodName, VirtualCall.args, hn, Glfw.PyApplication.virtualCall,
      Glfw.PyApplication.drawEvent, PYBIND11_OVERLOAD_PURE_NAME, PYBIND11_OVERLOAD_INT,
      get_overload, hf]
  | keyPressEvent e =>
    have hn : snake_case "keyPressEvent" = "key_press_event" := by decide
    simp only [VirtualCall.methodName, hn] at hf
    simp only [VirtualCall.methodName, VirtualCall.args, hn, Glfw.PyApplication.virtualCall,
      Glfw.PyApplication.keyPressEvent]
    exact overload_name_some self _ _ _ w f hf
  | keyReleaseEvent e =>
    have hn : snake_case "keyReleaseEvent" = "key_release_event" := by decide
    simp only [VirtualCall.methodName, hn] at hf
    simp only [VirtualCall.methodName, VirtualCall.args, hn, Glfw.PyApplication.virtualCall,
      Glfw.PyApplication.keyReleaseEvent]
    exact overload_name_some self _ _ _ w f hf
  | mousePressEvent e =>
    have hn : snake_case "mousePressEvent" = "mouse_press_event" := by decide
    simp only [VirtualCall.methodName, hn] at hf
    simp only [VirtualCall.methodName, VirtualCall.args, hn, Glfw.PyApplication.virtualCall,
      Glfw.PyApplication.mousePressEvent]
    exact overload_name_some self _ _ _ w f hf
  | mouseReleaseEvent e =>
    have hn : snake_case "mouseReleaseEvent" = "mouse_release_event" := by decide
    simp only [VirtualCall.methodName, hn] at hf
    simp only [VirtualCall.methodName, VirtualCall.args, hn, Glfw.PyApplication.virtualCall,
      Glfw.PyApplication.mouseReleaseEvent]
    exact overload_name_some self _ _ _ w f hf
  | mouseMoveEvent e =>
    have hn : snake_case "mouseMoveEvent" = "mouse_move_event" := by decide
    simp only [VirtualCall.methodName, hn] at hf
    simp only [VirtualCall.methodName, VirtualCall.args, hn, Glfw.PyApplication.virtualCall,
      Glfw.PyApplication.mouseMoveEvent]
    exact overload_name_some self _ _ _ w f hf
  | mouseScrollEvent e =>
    have hn : snake_case "mouseScrollEvent" = "mouse_scroll_event" := by decide
    simp only [VirtualCall.methodName, hn] at hf
    simp only [VirtualCall.methodName, VirtualCall.args, hn, Glfw.PyApplication.virtualCall,
      Glfw.PyApplication.mouseScrollEvent]
    exact overload_name_some self _ _ _ w f hf

theorem sdl2_virtualCall_looksUp {σ : Type} (c : VirtualCall) :
    LooksUp (σ := σ) (fun self => Sdl2.PyApplication.virtualCall self c)
      (snake_case c.methodName) c.args := by
  intro self w f hf
  cases c with
  | drawEvent =>
    have hn : snake_case "drawEvent" = "draw_event" := by decide
    simp only [VirtualCall.methodName, hn] at hf
    simp only [VirtualCall.methodName, VirtualCall.args, hn, Sdl2.PyApplication.virtualCall,
      Sdl2.PyApplication.drawEvent, PYBIND11_OVERLOAD_PURE_NAME, PYBIND11_OVERLOAD_INT,
      get_overload, hf]
  | keyPressEvent e =>
    have hn : snake_case "keyPressEvent" = "key_press_event" := by decide
    simp only [VirtualCall.methodName, hn] at hf
    simp only [VirtualCall.methodName, VirtualCall.args, hn, Sdl2.PyApplication.virtualCall,
      Sdl2.PyApplication.keyPressEvent]
    exact overload_name_some self _ _ _ w f hf
  | keyReleaseEvent e =>
    have hn : snake_case "keyReleaseEvent" = "key_release_event" := by decide
    simp only [VirtualCall.methodName, hn] at hf
    simp only [VirtualCall.methodName, VirtualCall.args, hn, Sdl2.PyApplication.virtualCall,
      Sdl2.PyApplication.keyReleaseEvent]
    exact overload_name_some self _ _ _ w f hf
  | mousePressEvent e =>
    have hn : snake_case "mousePressEvent" = "mouse_press_event" := by decide
    simp only [VirtualCall.methodName, hn] at hf
    simp only [VirtualCall.methodName, VirtualCall.args, hn, Sdl2.PyApplication.virtualCall,
      Sdl2.PyApplication.mousePressEvent]
    exact overload_name_some self _ _ _ w f hf
  | mouseReleaseEvent e =>
    have hn : snake_case "mouseReleaseEvent" = "mouse_release_event" := by decide
    simp only [VirtualCall.methodName, hn] at hf
    simp only [VirtualCall.methodName, VirtualCall.args, hn, Sdl2.PyApplication.virtualCall,
      Sdl2.PyApplication.mouseReleaseEvent]
    exact overload_name_some self _ _ _ w f hf
  | mouseMoveEvent e =>
    have hn : snake_case "mouseMoveEvent" = "mouse_move_event" := by decide
    simp only [VirtualCall.methodName, hn] at hf
    simp only [VirtualCall.methodName, VirtualCall.args, hn, Sdl2.PyApplication.virtualCall,
      Sdl2.PyApplication.mouseMoveEvent]
    exact overload_name_some self _ _ _ w f hf
  | mouseScrollEvent e =>
    have hn : snake_case "mouseScrollEvent" = "mouse_scroll_event" := by decide
    simp only [VirtualCall.methodName, hn] at hf
    simp only [VirtualCall.methodName, VirtualCall.args, hn, Sdl2.PyApplication.virtualCall,
      Sdl2.PyApplication.mouseScrollEvent]
    exact overload_name_some self _ _ _ w f hf

theorem glfw_virtualCall_fallsBack {σ : Type} (msvc : Bool) (c : VirtualCall)
    (hc : c ≠ .drawEvent) :
    FallsBackTo (σ := σ) (fun self => Glfw.PyApplication.virtualCall self c)
      (snake_case c.methodName) (Glfw.PublicizedApplication.virtualCall msvc c) := by
  cases c with
  | drawEvent => exact absurd rfl hc
  | keyPressEvent e =>
    refine ⟨Glfw.PublicizedApplication.keyPressEvent e, rfl, ?_⟩
    intro self w hf
    have hn : snake_case "keyPressEvent" = "key_press_event" := by decide
    simp only [VirtualCall.methodName, hn] at hf
    simp only [Glfw.PyApplication.virtualCall, Glfw.PyApplication.keyPressEvent]
    exact overload_name_none self _ _ _ w hf
  | keyReleaseEvent e =>
    refine ⟨Glfw.PublicizedApplication.keyReleaseEvent e, rfl, ?_⟩
    intro self w hf
    have hn : snake_case "keyReleaseEvent" = "key_release_event" := by decide
    simp only [VirtualCall.methodName, hn] at hf
    simp only [Glfw.PyApplication.virtualCall, Glfw.PyApplication.keyReleaseEvent]
    exact overload_name_none self _ _ _ w hf
  | mousePressEvent e =>
    refine ⟨Glfw.PublicizedApplication.mousePressEvent e, rfl, ?_⟩
    intro self w hf
    have hn : snake_case "mousePressEvent" = "mouse_press_event" := by decide
    simp only [VirtualCall.methodName, hn] at hf
    simp only [Glfw.PyApplication.virtualCall, Glfw.PyApplication.mousePressEvent]
    exact overload_name_none self _ _ _ w hf
  | mouseReleaseEvent e =>
    refine ⟨Glfw.PublicizedApplication.mouseReleaseEvent e, rfl, ?_⟩
    intro self w hf
    have hn : snake_case "mouseReleaseEvent" = "mouse_release_event" := by decide
    simp only [VirtualCall.methodName, hn] at hf
    simp only [Glfw.PyApplication.virtualCall, Glfw.PyApplication.mouseReleaseEvent]
    exact overload_name_none self _ _ _ w hf
  | mouseMoveEvent e =>
    refine ⟨Glfw.PublicizedApplication.mouseMoveEvent e, rfl, ?_⟩
    intro self w hf
    have hn : snake_case "mouseMoveEvent" = "mouse_move_event" := by decide
    simp only [VirtualCall.methodName, hn] at hf
    simp only [Glfw.PyApplication.virtualCall, Glfw.PyApplication.mouseMoveEvent]
    exact overload_name_none self _ _ _ w hf
  | mouseScrollEvent e =>
    refine ⟨Glfw.PublicizedApplication.mouseScrollEvent e, rfl, ?_⟩
    intro self w hf
    have hn : snake_case "mouseScrollEvent" = "mouse_scroll_event" := by decide
    simp only [VirtualCall.methodName, hn] at hf
    simp only [Glfw.PyApplication.virtualCall, Glfw.PyApplication.mouseScrollEvent]
    exact overload_name_none self _ _ _ w hf

theorem sdl2_virtualCall_fallsBack {σ : Type} (msvc : Bool) (c : VirtualCall)
    (hc : c ≠ .drawEvent) :
    FallsBackTo (σ := σ) (fun self => Sdl2.PyApplication.virtualCall self c)
      (snake_case c.methodName) (Sdl2.PublicizedApplication.virtualCall msvc c) := by
  cases c with
  | drawEvent => exact absurd rfl hc
  | keyPressEvent e =>
    refine ⟨Sdl2.PublicizedApplication.keyPressEvent e, rfl, ?_⟩
    intro self w hf
    have hn : snake_case "keyPressEvent" = "key_press_event" := by decide
    simp only [VirtualCall.methodName, hn] at hf
    simp only [Sdl2.PyApplication.virtualCall, Sdl2.PyApplication.keyPressEvent]
    exact overload_name_none self _ _ _ w hf
  | keyReleaseEvent e =>
    refine ⟨Sdl2.PublicizedApplication.keyReleaseEvent e, rfl, ?_⟩
    intro self w hf
    have hn : snake_case "keyReleaseEvent" = "key_release_event" := by decide
    simp only [VirtualCall.methodName, hn] at hf
    simp only [Sdl2.PyApplication.virtualCall, Sdl2.PyApplication.keyReleaseEvent]
    exact overload_name_none self _ _ _ w hf
  | mousePressEvent e =>
    refine ⟨Sdl2.PublicizedApplication.mousePressEvent e, rfl, ?_⟩
    intro self w hf
    have hn : snake_case "mousePressEvent" = "mouse_press_event" := by decide
    simp only [VirtualCall.methodName, hn] at hf
    simp only [Sdl2.PyApplication.virtualCall, Sdl2.PyApplication.mousePressEvent]
    exact overload_name_none self _ _ _ w hf
  | mouseReleaseEvent e =>
    refine ⟨Sdl2.PublicizedApplication.mouseReleaseEvent e, rfl, ?_⟩
    intro self w hf
    have hn : snake_case "mouseReleaseEvent" = "mouse_release_event" := by decide
    simp only [VirtualCall.methodName, hn] at hf
    simp only [Sdl2.PyApplication.virtualCall, Sdl2.PyApplication.mouseReleaseEvent]
    exact overload_name_none self _ _ _ w hf
  | mouseMoveEvent e =>
    refine ⟨Sdl2.PublicizedApplication.mouseMoveEvent e, rfl, ?_⟩
    intro self w hf
    have hn : snake_case "mouseMoveEvent" = "mouse_move_event" := by decide
    simp only [VirtualCall.methodName, hn] at hf
    simp only [Sdl2.PyApplication.virtualCall, Sdl2.PyApplication.mouseMoveEvent]
    exact overload_name_none self _ _ _ w hf
  | mouseScrollEvent e =>
    refine ⟨Sdl2.PublicizedApplication.mouseScrollEvent e, rfl, ?_⟩
    intro self w hf
    have hn : snake_case "mouseScrollEvent" = "mouse_scroll_event" := by decide
    simp only [VirtualCall.methodName, hn] at hf
    simp only [Sdl2.PyApplication.virtualCall, Sdl2.PyApplication.mouseScrollEvent]
    exact overload_name_none self _ _ _ w hf

theorem glfw_drawEvent_no_override {σ : Type} (self : PyObject σ) (w : World σ)
    (h : self.attr "draw_event" = none) :
    Glfw.PyApplication.virtualCall self .drawEvent w =
      pybind11_fail "Tried to call pure virtual function \"PublicizedApplication::draw_event\"" w := by
  have hs : ("Tried to call pure virtual function \"" ++ "PublicizedApplication" ++ "::" ++
      "draw_event" ++ "\"" : String) =
      "Tried to call pure virtual function \"PublicizedApplication::draw_event\"" := by decide
  simp only [Glfw.PyApplication.virtualCall, Glfw.PyApplication.drawEvent,
    PYBIND11_OVERLOAD_PURE_NAME, PYBIND11_OVERLOAD_INT, get_overload, h, hs]

theorem glfw_drawEvent_not_fallsBack (msvc : Bool) :
    ¬ FallsBackTo (fun self : PyObject (List Int) => Glfw.PyApplication.virtualCall self .drawEvent)
      (snake_case VirtualCall.drawEvent.methodName)
      (Glfw.PublicizedApplication.virtualCall msvc .drawEvent) := by
  rintro ⟨d, hd, h⟩
  cases msvc with
  | false => cases hd
  | true =>
    have hd2 : d = Outcome.ret := (Option.some.inj hd).symm
    subst hd2
    have h0 : Glfw.PyApplication.virtualCall noOverrides .drawEvent sampleWorld =
        Outcome.ret sampleWorld := h noOverrides sampleWorld rfl
    rw [glfw_drawEvent_no_override noOverrides sampleWorld rfl] at h0
    have h1 := congrArg Outcome.raised h0
    cases h1

theorem sdl2_drawEvent_no_override {σ : Type} (self : PyObject σ) (w : World σ)
    (h : self.attr "draw_event" = none) :
    Sdl2.PyApplication.virtualCall self .drawEvent w =
      pybind11_fail "Tried to call pure virtual function \"PublicizedApplication::draw_event\"" w := by
  have hs : ("Tried to call pure virtual function \"" ++ "PublicizedApplication" ++ "::" ++
      "draw_event" ++ "\"" : String) =
      "Tried to call pure virtual function \"PublicizedApplication::draw_event\"" := by decide
  simp only [Sdl2.PyApplication.virtualCall, Sdl2.PyApplication.drawEvent,
    PYBIND11_OVERLOAD_PURE_NAME, PYBIND11_OVERLOAD_INT, get_overload, h, hs]

theorem sdl2_drawEvent_not_fallsBack (msvc : Bool) :
    ¬ FallsBackTo (fun self : PyObject (List Int) => Sdl2.PyApplication.virtualCall self .drawEvent)
      (snake_case VirtualCall.drawEvent.methodName)
      (Sdl2.PublicizedApplication.virtualCall msvc .drawEvent) := by
  rintro ⟨d, hd, h⟩
  cases msvc with
  | false => cases hd
  | true =>
    have hd2 : d = Outcome.ret := (Option.some.inj hd).symm
    subst hd2
    have h0 : Sdl2.PyApplication.virtualCall noOverrides .drawEvent sampleWorld =
        Outcome.ret sampleWorld := h noOverrides sampleWorld rfl
    rw [sdl2_drawEvent_no_override noOverrides sampleWorld rfl] at h0
    have h1 := congrArg Outcome.raised h0
    cases h1

/-- C11, as stated, fails for the seventh callback: on an object without a
draw_event override the drawEvent shim of either backend does not fall back to
a default. Where `_MSC_VER` is defined the base class has the empty body and
the shim still throws; elsewhere the base class has no body to fall back to. -/
theorem drawEvent_shim_has_no_fallback :
    Glfw.PublicizedApplication.virtualCall true .drawEvent =
        some (Outcome.ret : World (List Int) → Outcome (List Int)) ∧
    (Outcome.ret sampleWorld).raised = none ∧
    (Glfw.PyApplication.virtualCall noOverrides .drawEvent sampleWorld).raised =
        some (.runtime_error "Tried to call pure virtual function \"PublicizedApplication::draw_event\"") ∧
    (Sdl2.PyApplication.virtualCall noOverrides .drawEvent sampleWorld).raised =
        some (.runtime_error "Tried to call pure virtual function \"PublicizedApplication::draw_event\"") ∧
    ¬ FallsBackTo
        (fun self : PyObject (List Int) => Glfw.PyApplication.virtualCall self .drawEvent)
        (snake_case VirtualCall.drawEvent.methodName)
        (Glfw.PublicizedApplication.virtualCall true .drawEvent) ∧
    ¬ FallsBackTo
        (fun self : PyObject (List Int) => Glfw.PyApplication.virtualCall self .drawEvent)
        (snake_case VirtualCall.drawEvent.methodName)
        (Glfw.PublicizedApplication.virtualCall false .drawEvent) ∧
    ¬ FallsBackTo
        (fun self : PyObject (List Int) => Sdl2.PyApplication.virtualCall self .drawEvent)
        (snake_case VirtualCall.drawEvent.methodName)
        (Sdl2.PublicizedApplication.virtualCall true .drawEvent) ∧
    ¬ FallsBackTo
        (fun self : PyObject (List Int) => Sdl2.PyApplication.virtualCall self .drawEvent)
        (snake_case VirtualCall.drawEvent.methodName)
        (Sdl2.PublicizedApplication.virtualCall false .drawEvent) :=
  ⟨rfl, rfl, by decide, by decide, glfw_drawEvent_not_fallsBack true,
    glfw_drawEvent_not_fallsBack false, sdl2_drawEvent_not_fallsBack true,
    sdl2_drawEvent_not_fallsBack false⟩

/-- C11, amended: the GLFW and SDL2 dispatch shims are the same mapping. In
both backends each of the seven virtual callbacks looks up the name that is
the snake_case form of its own name (draw_event, key_press_event,
key_release_event, mouse_press_event, mouse_release_event, mouse_move_event,
mouse_scroll_event) and hands the override its own arguments; the seven names
are pairwise distinct; on a missing override each of the six event shims falls
back to the default of the same callback, whereas the drawEvent shim has no
fallback and throws the pure-virtual error naming draw_event. -/
theorem shims_same_mapping {σ : Type} :
    (∀ (self : PyObject σ) (c : VirtualCall) (w : World σ),
      Glfw.PyApplication.virtualCall self c w = Sdl2.PyApplication.virtualCall self c w) ∧
    (∀ c : VirtualCall,
      LooksUp (σ := σ) (fun self => Glfw.PyApplication.virtualCall self c)
        (snake_case c.methodName) c.args ∧
      LooksUp (σ := σ) (fun self => Sdl2.PyApplication.virtualCall self c)
        (snake_case c.methodName) c.args) ∧
    (virtualMethodNames.map snake_case =
        ["draw_event", "key_press_event", "key_release_event", "mouse_press_event",
         "mouse_release_event", "mouse_move_event", "mouse_scroll_event"] ∧
      (virtualMethodNames.map snake_case).Nodup ∧
      ∀ c : VirtualCall, c.methodName ∈ virtualMethodNames) ∧
    (∀ (msvc : Bool) (c : VirtualCall), c ≠ .drawEvent →
      FallsBackTo (σ := σ) (fun self => Glfw.PyApplication.virtualCall self c)
        (snake_case c.methodName) (Glfw.PublicizedApplication.virtualCall msvc c) ∧
      FallsBackTo (σ := σ) (fun self => Sdl2.PyApplication.virtualCall self c)
        (snake_case c.methodName) (Sdl2.PublicizedApplication.virtualCall msvc c)) ∧
    (∀ (self : PyObject σ) (w : World σ), self.attr "draw_event" = none →
      Glfw.PyApplication.virtualCall self .drawEvent w =
        pybind11_fail "Tried to call pure virtual function \"PublicizedApplication::draw_event\"" w ∧
      Sdl2.PyApplication.virtualCall self .drawEvent w =
        pybind11_fail "Tried to call pure virtual function \"PublicizedApplication::draw_event\"" w) := by
  refine ⟨?_, ?_, ⟨by decide, by decide, ?_⟩, ?_, ?_⟩
  · intro self c w
    cases c <;> rfl
  · intro c
    exact ⟨glfw_virtualCall_looksUp c, sdl2_virtualCall_looksUp c⟩
  · intro c
    cases c <;> simp [VirtualCall.methodName, virtualMethodNames]
  · intro msvc c hc
    exact ⟨glfw_virtualCall_fallsBack msvc c hc, sdl2_virtualCall_fallsBack msvc c hc⟩
  · intro self w h
    exact ⟨glfw_drawEvent_no_override self w h, sdl2_drawEvent_no_override self w h⟩

/-- C11 amended, at a sample input: an object that defines mouse_move_event
only. Both shims of mouseMoveEvent call that override with a reference to
event 2. -/
theorem shims_same_mapping_witness :
    (withOverride "mouse_move_event" acceptingOverride : PyObject (List Int)).attr
        (snake_case (VirtualCall.mouseMoveEvent 2).methodName) = some acceptingOverride ∧
    Glfw.PyApplication.virtualCall (withOverride "mouse_move_event" acceptingOverride)
        (.mouseMoveEvent 2) sampleWorld =
      callOverload "mouse_move_event" acceptingOverride [.reference 2] sampleWorld ∧
    Sdl2.PyApplication.virtualCall (withOverride "mouse_move_event" acceptingOverride)
        (.mouseMoveEvent 2) sampleWorld =
      callOverload "mouse_move_event" acceptingOverride [.reference 2] sampleWorld := by
  have hn : snake_case (VirtualCall.mouseMoveEvent 2).methodName = "mouse_move_event" := by
    decide
  have ha : (withOverride "mouse_move_event" acceptingOverride : PyObject (List Int)).attr
      (snake_case (VirtualCall.mouseMoveEvent 2).methodName) = some acceptingOverride := by
    rw [hn]
    simp [withOverride]
  have h := (shims_same_mapping (σ := List Int)).2.1 (.mouseMoveEvent 2)
  have h1 := h.1 (withOverride "mouse_move_event" acceptingOverride) sampleWorld
    acceptingOverride ha
  have h2 := h.2 (withOverride "mouse_move_event" acceptingOverride) sampleWorld
    acceptingOverride ha
  rw [hn] at h1 h2
  exact ⟨ha, h1, h2⟩

end Magnum.Platform
